import Mathlib

/-!
# CyclistCompanion: GPS tracking engine and weather cache

A shallow embedding of `src/app/utils/distance.js`, `src/app/utils/gps.js`,
`src/app/utils/weather.js` and `src/app/config/weather.js`.

Modelling conventions.

* A JavaScript `number` is an element of a linearly ordered field `α` with a
  floor function (ideal arithmetic: no rounding, no `NaN`, no infinities).
  Every definition is computable and can be run at `α = ℚ`.
  Results of the source that arise from rounding are outside this model: in
  double precision the haversine term of `calculateDistance` can round above
  `1` for nearly antipodal points, and `Math.sqrt(1 - a)` is then `NaN`.
* The transcendental part of the `Math` object is a record `JsMath α` passed
  to the code that calls it.  `Math.floor` and `Math.round` are exact and are
  taken from the floor function of `α`.
* `Date.now()`, the location provider and `fetch` are the environment: each
  value they return is an explicit argument of the function that asks for it.
* A `null` field is `none`.  JavaScript truthiness and the coercion of `null`
  to `0` in a numeric comparison are written out where the source relies on
  them.
* Object state is passed explicitly: a method takes the receiver and returns
  the receiver after the call.  A `try`/`catch` is a case split on the outcome
  of each call that can throw; the state reached at the throw is kept.
* Observers are opaque handles.  Invoking one is recorded in the list of
  notifications the method returns; an observer does not call back into the
  manager.
-/

namespace CyclistCompanion

/-! ## The `Math` object -/

/-- The members of the JavaScript `Math` object used by `distance.js`. -/
structure JsMath (α : Type) where
  PI : α
  sin : α → α
  cos : α → α
  sqrt : α → α
  atan2 : α → α → α

section Model

variable {α : Type} [LinearOrderedField α] [FloorRing α]

/-- The exact `Math.floor`. -/
def mathFloor (x : α) : α := ((⌊x⌋ : ℤ) : α)

/-- The exact `Math.round`: the nearest integer, a tie going up. -/
def mathRound (x : α) : α := ((⌊x + 1 / 2⌋ : ℤ) : α)

/-! ## `distance.js` -/

namespace Distance

/-- `toRadians(degrees)`, distance.js:34-36. -/
def toRadians (M : JsMath α) (degrees : α) : α :=
  degrees * (M.PI / 180)

/-- `calculateDistance(lat1, lon1, lat2, lon2)`, distance.js:9-27, in exact
arithmetic.  The source takes `Math.sqrt(1 - a)` without clamping `a` to
`[0, 1]`: in double precision `a` can round to `1 + 2^-52` for nearly
antipodal points (for instance from `(-82, -180)` to `(82, 0)`), and the
result is then `NaN`; no value of this definition stands for that. -/
def calculateDistance (M : JsMath α) (lat1 lon1 lat2 lon2 : α) : α :=
  let R : α := 6371
  let dLat := toRadians M (lat2 - lat1)
  let dLon := toRadians M (lon2 - lon1)
  let a :=
    M.sin (dLat / 2) * M.sin (dLat / 2) +
    M.cos (toRadians M lat1) * M.cos (toRadians M lat2) *
    M.sin (dLon / 2) * M.sin (dLon / 2)
  let c := 2 * M.atan2 (M.sqrt a) (M.sqrt (1 - a))
  R * c

end Distance

/-- The object literal `{ latitude, longitude }`: an element of the array given
to `calculateTotalDistance`, and the value stored as `weatherCache.location`. -/
structure Coordinate (α : Type) where
  latitude : α
  longitude : α
deriving DecidableEq, Repr

namespace Distance

/-- `calculateTotalDistance(coordinates)`, distance.js:43-63; `none` is a
missing (`null` or `undefined`) argument.  The loop runs `i` from `1` to
`coordinates.length - 1`, so both `i - 1` and `i` are indices of the array and
the last case of the `match` does not occur. -/
def calculateTotalDistance (M : JsMath α) (coordinates : Option (List (Coordinate α))) : α :=
  match coordinates with
  | none => 0
  | some coordinates =>
    if coordinates.length < 2 then 0
    else
      (List.range' 1 (coordinates.length - 1)).foldl
        (fun totalDistance i =>
          match coordinates[i - 1]?, coordinates[i]? with
          | some prev, some curr =>
            totalDistance +
              calculateDistance M prev.latitude prev.longitude curr.latitude curr.longitude
          | _, _ => totalDistance)
        0

/-- `Number.prototype.toFixed(fractionDigits)` for `0 ≤ x < 10^21` and
`fractionDigits ≤ 100`, after ECMAScript: `n` is the integer for which
`n / 10^fractionDigits - x` is closest to zero, the larger one on a tie; the
result is the decimal digits of `n` with a point before the last
`fractionDigits` of them (no point when `fractionDigits` is `0`). -/
def toFixed (x : α) (fractionDigits : ℕ) : String :=
  let n : ℕ := ⌊x * 10 ^ fractionDigits + 1 / 2⌋.toNat
  let integerPart := toString (n / 10 ^ fractionDigits)
  if fractionDigits = 0 then integerPart
  else
    integerPart ++ "." ++
      String.mk ((List.range fractionDigits).map fun i =>
        Nat.digitChar (n / 10 ^ (fractionDigits - 1 - i) % 10))

/-- The string a template literal gives for a number with an integer value of
magnitude below `10^21`: its decimal digits, with a minus sign when
negative. -/
def integerToString (x : α) : String :=
  toString ⌊x⌋

/-- `formatDistance(distanceKm, decimals = 2)`, distance.js:71-79; `none` is
an omitted `decimals`. -/
def formatDistance (distanceKm : α) (decimals : Option ℕ) : String :=
  let decimals := decimals.getD 2
  if distanceKm ≥ 1 then
    toFixed distanceKm decimals ++ " km"
  else
    let distanceM := distanceKm * 1000
    integerToString (mathRound distanceM) ++ " m"

/-- The path distance of the specification: the sum of the distances between
consecutive points. -/
def pathDistance (M : JsMath α) : List (Coordinate α) → α
  | a :: b :: rest =>
    calculateDistance M a.latitude a.longitude b.latitude b.longitude +
      pathDistance M (b :: rest)
  | _ => 0

end Distance

/-! ## `gps.js` -/

/-- The `coords` member of a location object delivered by the provider. -/
structure Coords (α : Type) where
  latitude : α
  longitude : α
  accuracy : α
deriving DecidableEq, Repr

/-- A location object delivered by the location provider. -/
structure LocationObject (α : Type) where
  coords : Coords α
  timestamp : α
deriving DecidableEq, Repr

/-- The object literal `{ latitude, longitude, timestamp, accuracy }` that
`gps.js` stores for a fix. -/
structure LocationFix (α : Type) where
  latitude : α
  longitude : α
  timestamp : α
  accuracy : α
deriving DecidableEq, Repr

/-- The fix stored for a delivered location object: the object literal built
at gps.js:57-62 and at gps.js:92-97. -/
def LocationObject.toFix {α : Type} (location : LocationObject α) : LocationFix α :=
  { latitude := location.coords.latitude
    longitude := location.coords.longitude
    timestamp := location.timestamp
    accuracy := location.coords.accuracy }

/-- An observer handle (a callback function, compared by identity). -/
abbrev Callback := Nat

/-- The subscription handle returned by `Location.watchPositionAsync`. -/
abbrev Subscription := Nat

/-- The object returned by `getTrackingData`, gps.js:145-153. -/
structure TrackingData (α : Type) where
  isTracking : Bool
  currentLocation : Option (LocationFix α)
  totalDistance : α
  currentSpeed : α
  duration : α
  locationHistory : List (LocationFix α)
  averageSpeed : α
deriving DecidableEq, Repr

/-- The `status` member of a permission response of the location provider. -/
inductive PermissionStatus where
  | granted
  | denied
  | undetermined
deriving DecidableEq, Repr

/-- What the environment answers during one call of `startTracking`, in the
order the code asks.  `none` stands for a rejected promise (the call throws). -/
structure StartEnv (α : Type) where
  /-- `Location.requestForegroundPermissionsAsync()`, gps.js:19. -/
  permission : Option PermissionStatus
  /-- `Date.now()`, gps.js:47. -/
  now : α
  /-- `Location.getCurrentPositionAsync(…)`, gps.js:53. -/
  initialLocation : Option (LocationObject α)
  /-- `Date.now()` read by `getTrackingData`, gps.js:68. -/
  nowNotify : α
  /-- `Location.watchPositionAsync(…)`, gps.js:72. -/
  watch : Option Subscription

/-- The fields of a `GPSManager` instance, gps.js:5-15. -/
structure GPSManager (α : Type) where
  isTracking : Bool
  watchId : Option Subscription
  currentLocation : Option (LocationFix α)
  previousLocation : Option (LocationFix α)
  totalDistance : α
  startTime : Option α
  currentSpeed : α
  locationHistory : List (LocationFix α)
  callbacks : List Callback
deriving DecidableEq, Repr

namespace GPSManager

/-- The `constructor`, gps.js:5-15. -/
def new : GPSManager α :=
  { isTracking := false
    watchId := none
    currentLocation := none
    previousLocation := none
    totalDistance := 0
    startTime := none
    currentSpeed := 0
    locationHistory := []
    callbacks := [] }

/-- The method `calculateDistance`, gps.js:27-29. -/
def calculateDistance (M : JsMath α) (lat1 lon1 lat2 lon2 : α) : α :=
  Distance.calculateDistance M lat1 lon1 lat2 lon2

/-- `calculateSpeed(distanceKm, timeMs)`, gps.js:32-36. -/
def calculateSpeed (distanceKm timeMs : α) : α :=
  if timeMs = 0 then 0
  else
    let timeHours := timeMs / (1000 * 60 * 60)
    distanceKm / timeHours

/-- `getTrackingData()`, gps.js:142-154; `now` is the value of `Date.now()`.
`this.startTime ? … : 0` takes the second branch for `null` and for `0`. -/
def getTrackingData (s : GPSManager α) (now : α) : TrackingData α :=
  let duration : α :=
    match s.startTime with
    | some t => if t ≠ 0 then (now - t) / 1000 else 0
    | none => 0
  { isTracking := s.isTracking
    currentLocation := s.currentLocation
    totalDistance := s.totalDistance
    currentSpeed := s.currentSpeed
    duration := mathFloor duration
    locationHistory := s.locationHistory
    averageSpeed :=
      if duration > 0 then calculateSpeed s.totalDistance (duration * 1000) else 0 }

/-- `updateLocation(location)`, gps.js:91-128; `now` is the value of
`Date.now()` read by `getTrackingData` at line 126.  The result is the
manager after the call and the notifications sent, in order. -/
def updateLocation (M : JsMath α) (s : GPSManager α) (location : LocationObject α)
    (now : α) : GPSManager α × List (Callback × TrackingData α) :=
  let newLocation : LocationFix α :=
    { latitude := location.coords.latitude
      longitude := location.coords.longitude
      timestamp := location.timestamp
      accuracy := location.coords.accuracy }
  let s1 : GPSManager α :=
    match s.currentLocation with
    | some currentLocation =>
      let sa := { s with previousLocation := some currentLocation }
      let distance := calculateDistance M
        currentLocation.latitude currentLocation.longitude
        newLocation.latitude newLocation.longitude
      let sb :=
        if location.coords.accuracy < 20 then
          { sa with totalDistance := sa.totalDistance + distance }
        else sa
      let timeDiff := newLocation.timestamp - currentLocation.timestamp
      if timeDiff > 0 then
        { sb with currentSpeed := calculateSpeed distance timeDiff }
      else sb
    | none => s
  let s2 := { s1 with currentLocation := some newLocation }
  let s3 := { s2 with locationHistory := s2.locationHistory ++ [newLocation] }
  let trackingData := getTrackingData s3 now
  (s3, s3.callbacks.map fun callback => (callback, trackingData))

/-- `requestPermissions()`, gps.js:18-24: throws unless the status is
`'granted'`. -/
def requestPermissions (response : Option PermissionStatus) : Except String Bool :=
  match response with
  | none => .error "requestForegroundPermissionsAsync rejected"
  | some status =>
    if status ≠ PermissionStatus.granted then .error "Location permission denied"
    else .ok (status == PermissionStatus.granted)

/-- `startTracking(onLocationUpdate = null)`, gps.js:39-88.  The result is the
returned boolean, the manager after the call and the notifications sent.
Every `throw` inside the `try` block lands in the `catch`, which returns
`false` and leaves the fields as they are at that point. -/
def startTracking (s : GPSManager α) (onLocationUpdate : Option Callback)
    (env : StartEnv α) : Bool × GPSManager α × List (Callback × TrackingData α) :=
  match requestPermissions env.permission with
  | .error _ => (false, s, [])
  | .ok hasPermission =>
    if !hasPermission then (false, s, [])
    else
      let s1 := { s with
        isTracking := true
        startTime := some env.now
        totalDistance := 0
        locationHistory := []
        currentSpeed := 0 }
      match env.initialLocation with
      | none => (false, s1, [])
      | some initialLocation =>
        let currentLocation : LocationFix α :=
          { latitude := initialLocation.coords.latitude
            longitude := initialLocation.coords.longitude
            timestamp := initialLocation.timestamp
            accuracy := initialLocation.coords.accuracy }
        let s2 := { s1 with currentLocation := some currentLocation }
        let s3 := { s2 with locationHistory := s2.locationHistory ++ [currentLocation] }
        let (s4, notified) :=
          match onLocationUpdate with
          | some callback =>
            let sc := { s3 with callbacks := s3.callbacks ++ [callback] }
            (sc, [(callback, getTrackingData sc env.nowNotify)])
          | none => (s3, [])
        match env.watch with
        | none => (false, s4, notified)
        | some watchId => (true, { s4 with watchId := some watchId }, notified)

/-- `stopTracking()`, gps.js:131-139; `now` is the value of `Date.now()` read
by `getTrackingData`.  The result is the returned snapshot, the manager after
the call and the subscriptions on which `remove()` was called.  A
subscription is an object, so `if (this.watchId)` holds exactly when it is
not `null`. -/
def stopTracking (s : GPSManager α) (now : α) :
    TrackingData α × GPSManager α × List Subscription :=
  let (s1, removed) :=
    match s.watchId with
    | some watchId => ({ s with watchId := none }, [watchId])
    | none => (s, [])
  let s2 := { s1 with isTracking := false }
  let s3 := { s2 with callbacks := [] }
  (getTrackingData s3 now, s3, removed)

/-- `addCallback(callback)`, gps.js:157-159. -/
def addCallback (s : GPSManager α) (callback : Callback) : GPSManager α :=
  { s with callbacks := s.callbacks ++ [callback] }

/-- `removeCallback(callback)`, gps.js:162-164. -/
def removeCallback (s : GPSManager α) (callback : Callback) : GPSManager α :=
  { s with callbacks := s.callbacks.filter fun cb => cb ≠ callback }

/-- The manager after a sequence of `updateLocation` calls, one for each
delivered fix, each paired with the value of `Date.now()` during its call
(the watch callback of gps.js:78-80 run once per fix, in order). -/
def updateLocations (M : JsMath α) (s : GPSManager α) :
    List (LocationObject α × α) → GPSManager α
  | [] => s
  | (location, now) :: rest => updateLocations M (updateLocation M s location now).1 rest

end GPSManager

/-! ## `config/weather.js` -/

/-- The object `WEATHER_CONFIG`, config/weather.js:4-18. -/
structure WeatherConfig (α : Type) where
  API_KEY : Option String
  BASE_URL : String
  UNITS : String
  CACHE_DURATION_MINUTES : α
  LOCATION_THRESHOLD_METERS : α

/-- `WEATHER_CONFIG`; `envKey` is `process.env.EXPO_PUBLIC_OPENWEATHER_API_KEY`
(`none` when unset).  `envKey || null` is `null` for an unset or empty key. -/
def WEATHER_CONFIG (envKey : Option String) : WeatherConfig α :=
  { API_KEY :=
      match envKey with
      | some key => if key ≠ "" then some key else none
      | none => none
    BASE_URL := "https://api.openweathermap.org/data/2.5"
    UNITS := "metric"
    CACHE_DURATION_MINUTES := 15
    LOCATION_THRESHOLD_METERS := 5000 }

/-! ## `weather.js` -/

/-- The weather snapshot built by `formatWeatherData` and `getMockWeather`. -/
structure WeatherData (α : Type) where
  temperature : α
  feelsLike : α
  humidity : α
  windSpeed : α
  windDirection : α
  description : String
  icon : String
  visibility : α
  condition : String
deriving DecidableEq, Repr

/-- The object `weatherCache`, weather.js:12-17. -/
structure WeatherCache (α : Type) where
  data : Option (WeatherData α)
  location : Option (Coordinate α)
  timestamp : Option α
  expiresAt : Option α
deriving DecidableEq, Repr

/-- The member `main` of a current-weather payload. -/
structure ApiMain (α : Type) where
  temp : α
  feels_like : α
  humidity : α
deriving DecidableEq, Repr

/-- The member `wind` of a current-weather payload. -/
structure ApiWind (α : Type) where
  speed : α
  deg : α
deriving DecidableEq, Repr

/-- An element of the array `weather` of a current-weather payload. -/
structure ApiWeatherItem where
  id : ℤ
  description : String
  icon : String
deriving DecidableEq, Repr

/-- The JSON payload of `GET {baseUrl}/weather`. -/
structure ApiPayload (α : Type) where
  main : ApiMain α
  wind : ApiWind α
  weather : List ApiWeatherItem
  visibility : α
deriving DecidableEq, Repr

/-- The outcome of `fetch(…)` followed by `response.json()`,
weather.js:103-111. -/
inductive FetchOutcome (α : Type) where
  /-- The promise of `fetch` rejects. -/
  | networkError
  /-- A response with `response.ok` false and the given status. -/
  | notOk (status : Nat)
  /-- `response.ok` holds and the body is unusable: `response.json()` rejects,
  or the parsed value lacks `main`, `wind` or `weather`, so that reading it in
  `formatWeatherData` throws. -/
  | badJson
  /-- `response.ok` holds and the body parses to `data`. -/
  | ok (data : ApiPayload α)
deriving DecidableEq, Repr

/-- What the environment answers during one call of `getCurrentWeather`. -/
structure WeatherEnv (α : Type) where
  /-- `Date.now()` read by `shouldFetchWeather`, weather.js:34. -/
  now : α
  /-- The next `Date.now()`: the one of `getCachedWeather` (weather.js:79) or
  of `updateCache` (weather.js:67), whichever the call reaches. -/
  nowLater : α
  /-- The outcome of the request, when one is made. -/
  fetch : FetchOutcome α

/-- The value returned by `getCyclingRecommendation`. -/
structure Recommendation where
  canRide : Bool
  message : String
  gear : List String
deriving DecidableEq, Repr

/-- The fields of a `WeatherManager` instance, weather.js:7-25, without
`forecast` (the forecast methods are not part of this development). -/
structure WeatherManager (α : Type) where
  apiKey : Option String
  baseUrl : String
  weatherCache : WeatherCache α
  cacheDuration : α
  locationThreshold : α
  currentWeather : Option (WeatherData α)
deriving DecidableEq, Repr

/-- The numeric value of a nullable number in a comparison: `null` is `0`. -/
def nullToZero (x : Option α) : α := x.getD 0

namespace WeatherManager

/-- The `constructor`, weather.js:7-25. -/
def new (config : WeatherConfig α) : WeatherManager α :=
  { apiKey := config.API_KEY
    baseUrl := config.BASE_URL
    weatherCache := { data := none, location := none, timestamp := none, expiresAt := none }
    cacheDuration := config.CACHE_DURATION_MINUTES * 60 * 1000
    locationThreshold := config.LOCATION_THRESHOLD_METERS
    currentWeather := none }

/-- `shouldFetchWeather(latitude, longitude)`, weather.js:33-63; `now` is the
value of `Date.now()`. -/
def shouldFetchWeather (M : JsMath α) (s : WeatherManager α) (latitude longitude now : α) :
    Bool :=
  if s.weatherCache.data.isNone || s.weatherCache.location.isNone then true
  else if now > nullToZero s.weatherCache.expiresAt then true
  else
    match s.weatherCache.location with
    | some location =>
      let distanceMoved := Distance.calculateDistance M
        location.latitude location.longitude latitude longitude
      if distanceMoved > s.locationThreshold / 1000 then true else false
    | none => false

/-- `updateCache(weatherData, latitude, longitude)`, weather.js:66-75. -/
def updateCache (s : WeatherManager α) (weatherData : WeatherData α)
    (latitude longitude now : α) : WeatherManager α :=
  { s with weatherCache :=
      { data := some weatherData
        location := some { latitude := latitude, longitude := longitude }
        timestamp := some now
        expiresAt := some (now + s.cacheDuration) } }

/-- `getCachedWeather()`, weather.js:78-83. -/
def getCachedWeather (s : WeatherManager α) (now : α) : Option (WeatherData α) :=
  if s.weatherCache.data.isSome && now < nullToZero s.weatherCache.expiresAt then
    s.weatherCache.data
  else none

/-- `getCyclistCondition(weatherId, temperature)`, weather.js:175-196. -/
def getCyclistCondition (weatherId : ℤ) (temperature : α) : String :=
  if weatherId ≥ 200 && weatherId < 300 then "stormy"
  else if weatherId ≥ 300 && weatherId < 600 then "rainy"
  else if weatherId ≥ 600 && weatherId < 700 then "snowy"
  else if weatherId ≥ 700 && weatherId < 800 then "foggy"
  else if weatherId = 800 then
    if temperature > 25 then "hot" else if temperature < 10 then "cold" else "perfect"
  else if weatherId > 800 then
    if temperature > 25 then "hot" else if temperature < 10 then "cold" else "good"
  else "unknown"

/-- `formatWeatherData(data)`, weather.js:160-172.  Reading a member of
`data.weather[0]` throws when the array is empty. -/
def formatWeatherData (data : ApiPayload α) : Except String (WeatherData α) :=
  match data.weather.head? with
  | none => .error "TypeError: data.weather[0] is undefined"
  | some weather0 =>
    .ok
      { temperature := mathRound data.main.temp
        feelsLike := mathRound data.main.feels_like
        humidity := data.main.humidity
        windSpeed := mathRound (data.wind.speed * 3.6)
        windDirection := data.wind.deg
        description := weather0.description
        icon := weather0.icon
        visibility := data.visibility / 1000
        condition := getCyclistCondition weather0.id data.main.temp }

/-- `getMockWeather()`, weather.js:211-223. -/
def getMockWeather : WeatherData α :=
  { temperature := 18
    feelsLike := 20
    humidity := 65
    windSpeed := 12
    windDirection := 180
    description := "Partly cloudy"
    icon := "02d"
    visibility := 10
    condition := "good" }

/-- The body of the `try` block of `getCurrentWeather` from the request on,
weather.js:103-112: the formatted payload, or the error thrown. -/
def fetchAndFormat (outcome : FetchOutcome α) : Except String (WeatherData α) :=
  match outcome with
  | .networkError => .error "Network request failed"
  | .notOk _ => .error "Weather API request failed"
  | .badJson => .error "JSON parse error"
  | .ok data => formatWeatherData data

/-- The failures of a request named by the specification: a network error, a
response that is not ok, and a malformed payload (a body that does not parse,
or one whose `weather` array is empty). -/
def isFailure (outcome : FetchOutcome α) : Bool :=
  match outcome with
  | .networkError => true
  | .notOk _ => true
  | .badJson => true
  | .ok data => data.weather.isEmpty

/-- `getCurrentWeather(latitude, longitude)`, weather.js:86-133.  The result
is the returned value (`none` for `null`), the manager after the call and the
coordinates of the requests sent to the weather API.  A `null` or empty
`apiKey` is falsy. -/
def getCurrentWeather (M : JsMath α) (s : WeatherManager α) (latitude longitude : α)
    (env : WeatherEnv α) :
    Option (WeatherData α) × WeatherManager α × List (Coordinate α) :=
  if !shouldFetchWeather M s latitude longitude env.now then
    (getCachedWeather s env.nowLater, s, [])
  else if s.apiKey.isNone || s.apiKey = some "" then
    let mockData : WeatherData α := getMockWeather
    (some mockData, updateCache s mockData latitude longitude env.nowLater, [])
  else
    let request : Coordinate α := { latitude := latitude, longitude := longitude }
    match fetchAndFormat env.fetch with
    | .ok formattedData =>
      let s1 := updateCache s formattedData latitude longitude env.nowLater
      let s2 := { s1 with currentWeather := some formattedData }
      (s2.currentWeather, s2, [request])
    | .error _ =>
      match getCachedWeather s env.nowLater with
      | some cachedData => (some cachedData, s, [request])
      | none => (some getMockWeather, s, [request])

/-- `getCyclingRecommendation(weather)`, weather.js:303-359. -/
def getCyclingRecommendation (weather : WeatherData α) : Recommendation :=
  let condition := weather.condition
  let temperature := weather.temperature
  let windSpeed := weather.windSpeed
  if condition = "stormy" || condition = "snowy" then
    { canRide := false
      message := "Not recommended - dangerous weather conditions"
      gear := ["helmet", "lights", "reflective clothing"] }
  else if condition = "rainy" then
    { canRide := temperature > 5
      message :=
        if temperature > 5 then "Ride with caution - wet roads"
        else "Too cold and wet to ride safely"
      gear := ["helmet", "rain jacket", "waterproof pants", "lights", "reflective clothing"] }
  else if condition = "foggy" then
    { canRide := true
      message := "Ride with extra caution - reduced visibility"
      gear := ["helmet", "lights", "reflective clothing", "bright colors"] }
  else if temperature < 5 then
    { canRide := true
      message := "Cold weather - dress warmly"
      gear := ["helmet", "thermal layers", "gloves", "neck warmer", "lights"] }
  else if temperature > 30 then
    { canRide := true
      message := "Hot weather - stay hydrated"
      gear := ["helmet", "breathable clothing", "sunglasses", "sunscreen"] }
  else if windSpeed > 25 then
    { canRide := true
      message := "Strong winds - be careful on exposed roads"
      gear := ["helmet", "aerodynamic clothing"] }
  else
    { canRide := true
      message := "Perfect cycling weather!"
      gear := ["helmet", "comfortable clothing"] }

/-- The rule table of the specification for `recommend`, in precedence order:
storm or snow, rain, fog, cold, hot, high wind.  Each rule is a guard and the
result it produces. -/
def recommendationRules :
    List ((WeatherData α → Bool) × (WeatherData α → Recommendation)) :=
  [ (fun w => w.condition = "stormy" || w.condition = "snowy",
     fun _ =>
      { canRide := false
        message := "Not recommended - dangerous weather conditions"
        gear := ["helmet", "lights", "reflective clothing"] }),
    (fun w => w.condition = "rainy",
     fun w =>
      { canRide := w.temperature > 5
        message :=
          if w.temperature > 5 then "Ride with caution - wet roads"
          else "Too cold and wet to ride safely"
        gear := ["helmet", "rain jacket", "waterproof pants", "lights",
          "reflective clothing"] }),
    (fun w => w.condition = "foggy",
     fun _ =>
      { canRide := true
        message := "Ride with extra caution - reduced visibility"
        gear := ["helmet", "lights", "reflective clothing", "bright colors"] }),
    (fun w => w.temperature < 5,
     fun _ =>
      { canRide := true
        message := "Cold weather - dress warmly"
        gear := ["helmet", "thermal layers", "gloves", "neck warmer", "lights"] }),
    (fun w => w.temperature > 30,
     fun _ =>
      { canRide := true
        message := "Hot weather - stay hydrated"
        gear := ["helmet", "breathable clothing", "sunglasses", "sunscreen"] }),
    (fun w => w.windSpeed > 25,
     fun _ =>
      { canRide := true
        message := "Strong winds - be careful on exposed roads"
        gear := ["helmet", "aerodynamic clothing"] }) ]

/-- The recommendation of the specification: the result of the first rule of
`recommendationRules` whose guard holds, else the default message. -/
def recommendByPrecedence (weather : WeatherData α) : Recommendation :=
  match recommendationRules.find? (fun rule => rule.1 weather) with
  | some rule => rule.2 weather
  | none =>
    { canRide := true
      message := "Perfect cycling weather!"
      gear := ["helmet", "comfortable clothing"] }

end WeatherManager

end Model

/-! ## Running the model -/

/-- A rational stand-in for the `Math` object, used to run the definitions on
examples.  It is exact at the arguments `0` and `1`: `sin 0 = 0`, `cos 0 = 1`,
`sqrt 0 = 0`, `sqrt 1 = 1`, `atan2 0 1 = 0`. -/
def ratMath : JsMath ℚ :=
  { PI := 355 / 113
    sin := fun x => x
    cos := fun x => 1 - x * x / 2
    sqrt := fun x => x
    atan2 := fun y x => if x = 0 then 0 else y / x }

/-- A manager in the middle of a ride: one fix at the origin taken at time
`1000`, `3` km on the clock, one observer registered. -/
def rideManager : GPSManager ℚ :=
  { isTracking := true
    watchId := some 1
    currentLocation := some { latitude := 0, longitude := 0, timestamp := 1000, accuracy := 5 }
    previousLocation := none
    totalDistance := 3
    startTime := some 1000
    currentSpeed := 12
    locationHistory := [{ latitude := 0, longitude := 0, timestamp := 1000, accuracy := 5 }]
    callbacks := [7] }

/-- A fix delivered by the provider at latitude `lat`, longitude `0`. -/
def fixAt (lat timestamp accuracy : ℚ) : LocationObject ℚ :=
  { coords := { latitude := lat, longitude := 0, accuracy := accuracy }
    timestamp := timestamp }

/-- A test double for `Math` under which any two points are exactly 5 km
apart: `6371 * (2 * atan2 _ _) = 5`. -/
def fiveKmMath : JsMath ℚ :=
  { ratMath with atan2 := fun _ _ => 5 / 12742 }

/-- A snapshot that differs from the synthetic one. -/
def rainyDay : WeatherData ℚ :=
  { temperature := 4
    feelsLike := 1
    humidity := 90
    windSpeed := 30
    windDirection := 270
    description := "light rain"
    icon := "10d"
    visibility := 6
    condition := "rainy" }

/-- A manager with an API key and the default configuration after a successful
fetch of `rainyDay` for the origin at time `100`: the entry expires at
`100 + 15 * 60 * 1000 = 900100`. -/
def cachedManager : WeatherManager ℚ :=
  { WeatherManager.updateCache (WeatherManager.new (WEATHER_CONFIG (some "key")))
      rainyDay 0 0 100 with
    currentWeather := some rainyDay }

/-- The environment of a successful start at time `1000`: permission granted,
an initial fix at the origin stamped `1000`, the watch established. -/
def startEnv : StartEnv ℚ :=
  { permission := some PermissionStatus.granted
    now := 1000
    initialLocation := some (fixAt 0 1000 5)
    nowNotify := 1000
    watch := some 1 }

/-- A fresh manager after `startTracking(7)` in the environment `startEnv`. -/
def startedManager : GPSManager ℚ :=
  (GPSManager.startTracking (GPSManager.new : GPSManager ℚ) (some 7) startEnv).2.1

/-- A payload of the weather API: clear sky (code `800`) at 25.4 degrees. -/
def clearSkyPayload : ApiPayload ℚ :=
  { main := { temp := 127 / 5, feels_like := 26, humidity := 40 }
    wind := { speed := 3, deg := 90 }
    weather := [{ id := 800, description := "clear sky", icon := "01d" }]
    visibility := 10000 }

/-- The payload `clearSkyPayload` with the integer temperature `25`. -/
def clearSky25Payload : ApiPayload ℚ :=
  { clearSkyPayload with main := { temp := 25, feels_like := 26, humidity := 40 } }

/-- The `Math` object over the real numbers: the mathematical functions
themselves, `atan2 y x` being the argument of the complex number `x + y i`. -/
noncomputable def realMath : JsMath ℝ :=
  { PI := Real.pi
    sin := Real.sin
    cos := Real.cos
    sqrt := Real.sqrt
    atan2 := fun y x => Complex.arg ⟨x, y⟩ }

/-- A manager over the real numbers just after a start at time `1000` with an
initial fix at the origin. -/
noncomputable def realRide : GPSManager ℝ :=
  { (GPSManager.new : GPSManager ℝ) with
    isTracking := true
    startTime := some 1000
    currentLocation := some { latitude := 0, longitude := 0, timestamp := 1000, accuracy := 5 }
    locationHistory := [{ latitude := 0, longitude := 0, timestamp := 1000, accuracy := 5 }] }

/-! ## Theorems -/

/-- C1. Accuracy gate of `updateLocation`: when a current location exists, the
total distance grows by the Haversine distance from it to the new fix if the
accuracy of the fix is below 20 and is unchanged if the accuracy is 20 or
more; when there is no current location the total distance is unchanged; in
every case the current location becomes the new fix. -/
theorem updateLocation_accuracy_gate {α : Type} [LinearOrderedField α] [FloorRing α]
    (M : JsMath α) (s : GPSManager α)
    (location : LocationObject α) (now : α) :
    (∀ cur, s.currentLocation = some cur →
      (location.coords.accuracy < 20 →
        (GPSManager.updateLocation M s location now).1.totalDistance =
          s.totalDistance + GPSManager.calculateDistance M cur.latitude cur.longitude
            location.coords.latitude location.coords.longitude) ∧
      (20 ≤ location.coords.accuracy →
        (GPSManager.updateLocation M s location now).1.totalDistance = s.totalDistance)) ∧
    (s.currentLocation = none →
      (GPSManager.updateLocation M s location now).1.totalDistance = s.totalDistance) ∧
    (GPSManager.updateLocation M s location now).1.currentLocation =
      some { latitude := location.coords.latitude
             longitude := location.coords.longitude
             timestamp := location.timestamp
             accuracy := location.coords.accuracy } := by
  refine ⟨?_, ?_, rfl⟩
  · intro cur hcur
    constructor
    · intro hacc
      simp only [GPSManager.updateLocation, hcur, if_pos hacc]
      split <;> rfl
    · intro hacc
      simp only [GPSManager.updateLocation, hcur, if_neg (not_lt.mpr hacc)]
      split <;> rfl
  · intro hnone
    simp only [GPSManager.updateLocation, hnone]

/-- Witness for C1 on `rideManager`: a fix of accuracy 10 adds its distance, a
fix of accuracy 25 adds nothing, and a manager without a current location
keeps its total. -/
theorem updateLocation_accuracy_gate_witness :
    (GPSManager.updateLocation ratMath rideManager (fixAt 1 2000 10) 2000).1.totalDistance =
      3 + GPSManager.calculateDistance ratMath 0 0 1 0 ∧
    (GPSManager.updateLocation ratMath rideManager (fixAt 1 2000 25) 2000).1.totalDistance = 3 ∧
    (GPSManager.updateLocation ratMath (GPSManager.new : GPSManager ℚ)
      (fixAt 1 2000 10) 2000).1.totalDistance = 0 :=
  ⟨((updateLocation_accuracy_gate ratMath rideManager (fixAt 1 2000 10) 2000).1
      { latitude := 0, longitude := 0, timestamp := 1000, accuracy := 5 } rfl).1
      (by norm_num [fixAt]),
   ((updateLocation_accuracy_gate ratMath rideManager (fixAt 1 2000 25) 2000).1
      { latitude := 0, longitude := 0, timestamp := 1000, accuracy := 5 } rfl).2
      (by norm_num [fixAt]),
   (updateLocation_accuracy_gate ratMath (GPSManager.new : GPSManager ℚ)
      (fixAt 1 2000 10) 2000).2.1 rfl⟩

/-- C2. Speed step of `updateLocation`: when a current location exists and the
new fix is later by `timeDiff > 0` milliseconds, the current speed becomes
`d / (timeDiff / 3600000)` with `d` the Haversine distance between the two
fixes; when `timeDiff ≤ 0` the current speed keeps its prior value. -/
theorem updateLocation_speed_step {α : Type} [LinearOrderedField α] [FloorRing α]
    (M : JsMath α) (s : GPSManager α)
    (location : LocationObject α) (now : α) (cur : LocationFix α)
    (hcur : s.currentLocation = some cur) :
    (0 < location.timestamp - cur.timestamp →
      (GPSManager.updateLocation M s location now).1.currentSpeed =
        GPSManager.calculateDistance M cur.latitude cur.longitude
            location.coords.latitude location.coords.longitude /
          ((location.timestamp - cur.timestamp) / 3600000)) ∧
    (location.timestamp - cur.timestamp ≤ 0 →
      (GPSManager.updateLocation M s location now).1.currentSpeed = s.currentSpeed) := by
  constructor
  · intro ht
    have hne : location.timestamp - cur.timestamp ≠ 0 := ne_of_gt ht
    simp only [GPSManager.updateLocation, hcur, gt_iff_lt, if_pos ht,
      GPSManager.calculateSpeed, if_neg hne]
    norm_num
  · intro ht
    simp only [GPSManager.updateLocation, hcur, gt_iff_lt, if_neg (not_lt.mpr ht)]
    split <;> rfl

/-- Witness for C2 on `rideManager`: a fix one second later sets the speed, a
fix with the same timestamp leaves it at `12`. -/
theorem updateLocation_speed_step_witness :
    (GPSManager.updateLocation ratMath rideManager (fixAt 1 2000 10) 2000).1.currentSpeed =
      GPSManager.calculateDistance ratMath 0 0 1 0 / ((2000 - 1000) / 3600000) ∧
    (GPSManager.updateLocation ratMath rideManager (fixAt 1 1000 10) 2000).1.currentSpeed = 12 :=
  ⟨(updateLocation_speed_step ratMath rideManager (fixAt 1 2000 10) 2000
      { latitude := 0, longitude := 0, timestamp := 1000, accuracy := 5 } rfl).1
      (by norm_num [fixAt]),
   (updateLocation_speed_step ratMath rideManager (fixAt 1 1000 10) 2000
      { latitude := 0, longitude := 0, timestamp := 1000, accuracy := 5 } rfl).2
      (by norm_num [fixAt])⟩

/-- A refused (or failed) permission request makes `startTracking` return
`false` with every field of the manager as it was. -/
theorem startTracking_permission_refused {α : Type} [LinearOrderedField α] [FloorRing α]
    (s : GPSManager α) (cb : Option Callback)
    (env : StartEnv α) (hperm : env.permission ≠ some PermissionStatus.granted) :
    GPSManager.startTracking s cb env = (false, s, []) := by
  cases hp : env.permission with
  | none => simp [GPSManager.startTracking, GPSManager.requestPermissions, hp]
  | some status =>
    have : status ≠ PermissionStatus.granted := by
      intro h; exact hperm (by rw [hp, h])
    simp [GPSManager.startTracking, GPSManager.requestPermissions, hp, this]

/-- C3, the code at the failing input.  On a fresh manager, with permission
granted and no initial fix delivered, `startTracking` returns `false` but the
manager is left with `isTracking = true` and `startTime = now`, so it is not
the manager it was before the call. -/
theorem startTracking_failed_fix_keeps_reset :
    (GPSManager.startTracking (GPSManager.new : GPSManager ℚ) (some 7)
        { permission := some PermissionStatus.granted, now := 5000,
          initialLocation := none, nowNotify := 5000, watch := some 1 }) =
      (false, { (GPSManager.new : GPSManager ℚ) with
                  isTracking := true, startTime := some 5000 }, []) ∧
    (GPSManager.startTracking (GPSManager.new : GPSManager ℚ) (some 7)
        { permission := some PermissionStatus.granted, now := 5000,
          initialLocation := none, nowNotify := 5000, watch := some 1 }).2.1 ≠
      GPSManager.new := by
  constructor <;>
    simp [GPSManager.startTracking, GPSManager.requestPermissions, GPSManager.new]

/-- A failure of the request makes the `try` block throw. -/
theorem fetchAndFormat_of_isFailure {α : Type} [LinearOrderedField α] [FloorRing α]
    (outcome : FetchOutcome α)
    (h : WeatherManager.isFailure outcome = true) :
    ∃ e, WeatherManager.fetchAndFormat outcome = .error e := by
  cases outcome with
  | networkError => exact ⟨_, rfl⟩
  | notOk status => exact ⟨_, rfl⟩
  | badJson => exact ⟨_, rfl⟩
  | ok data =>
    have hw : data.weather = [] := by
      simpa [WeatherManager.isFailure] using h
    simp [WeatherManager.fetchAndFormat, WeatherManager.formatWeatherData, hw]

/-- C4, counterexample.  `cachedManager` holds `rainyDay` with `expiresAt =
900100`; at time `2000000` a fetch is attempted and fails with a network error.
The call returns the synthetic snapshot, not the cached `rainyDay`. -/
theorem getCurrentWeather_failure_expired_returns_mock :
    (cachedManager.weatherCache.data = some rainyDay ∧
     WeatherManager.shouldFetchWeather ratMath cachedManager 0 0 2000000 = true ∧
     (WeatherManager.getCurrentWeather ratMath cachedManager 0 0
        { now := 2000000, nowLater := 2000000, fetch := FetchOutcome.networkError }).2.2 =
       [{ latitude := 0, longitude := 0 }]) ∧
    (WeatherManager.getCurrentWeather ratMath cachedManager 0 0
        { now := 2000000, nowLater := 2000000, fetch := FetchOutcome.networkError }).1 =
      some WeatherManager.getMockWeather ∧
    (WeatherManager.getCurrentWeather ratMath cachedManager 0 0
        { now := 2000000, nowLater := 2000000, fetch := FetchOutcome.networkError }).1 ≠
      cachedManager.weatherCache.data := by
  refine ⟨⟨?_, ?_, ?_⟩, ?_, ?_⟩ <;>
    norm_num +decide [WeatherManager.getCurrentWeather, WeatherManager.shouldFetchWeather,
      WeatherManager.getCachedWeather, WeatherManager.fetchAndFormat, cachedManager,
      WeatherManager.updateCache,
      WeatherManager.new, WEATHER_CONFIG, nullToZero, WeatherManager.getMockWeather, rainyDay]

/-- C4, amended.  When a fetch is attempted and fails, `getCurrentWeather`
returns the cached data if the cache holds data and the clock read after the
failure is before `expiresAt`; if the cache holds no data, or that clock
reading is past `expiresAt`, it returns the synthetic snapshot of
`getMockWeather`.  The manager is unchanged either way. -/
theorem getCurrentWeather_failure_fallback {α : Type} [LinearOrderedField α] [FloorRing α]
    (M : JsMath α) (s : WeatherManager α)
    (latitude longitude : α) (env : WeatherEnv α)
    (hfetch : WeatherManager.shouldFetchWeather M s latitude longitude env.now = true)
    (hkey : s.apiKey ≠ none ∧ s.apiKey ≠ some "")
    (hfail : WeatherManager.isFailure env.fetch = true) :
    (∀ d, s.weatherCache.data = some d → env.nowLater < nullToZero s.weatherCache.expiresAt →
      (WeatherManager.getCurrentWeather M s latitude longitude env).1 = some d) ∧
    (s.weatherCache.data = none ∨ nullToZero s.weatherCache.expiresAt < env.nowLater →
      (WeatherManager.getCurrentWeather M s latitude longitude env).1 =
        some WeatherManager.getMockWeather) ∧
    (WeatherManager.getCurrentWeather M s latitude longitude env).2.1 = s := by
  obtain ⟨e, he⟩ := fetchAndFormat_of_isFailure env.fetch hfail
  have hk1 : s.apiKey.isNone = false := by
    cases hk : s.apiKey with
    | none => exact absurd hk hkey.1
    | some k => rfl
  have hk2 : ¬ s.apiKey = some "" := hkey.2
  refine ⟨?_, ?_, ?_⟩
  · intro d hd hlt
    simp [WeatherManager.getCurrentWeather, hfetch, hk1, hk2, he,
      WeatherManager.getCachedWeather, hd, hlt]
  · intro h
    rcases h with hnone | hexp
    · simp [WeatherManager.getCurrentWeather, hfetch, hk1, hk2, he,
        WeatherManager.getCachedWeather, hnone]
    · simp [WeatherManager.getCurrentWeather, hfetch, hk1, hk2, he,
        WeatherManager.getCachedWeather, not_lt.mpr hexp.le]
  · simp only [WeatherManager.getCurrentWeather, hfetch, hk1, hk2, he]
    simp only [Bool.not_true, Bool.false_eq_true, if_false, Bool.or_false, decide_False]
    split <;> rfl

/-- Witness for C4 (amended) on `cachedManager`: at time `500` the entry is
unexpired, the query at latitude `10` is farther than 5 km so a fetch is
attempted, the response is not ok, and the cached `rainyDay` is returned. -/
theorem getCurrentWeather_failure_fallback_witness :
    (WeatherManager.getCurrentWeather ratMath cachedManager 10 0
        { now := 500, nowLater := 500, fetch := FetchOutcome.notOk 500 }).1 = some rainyDay :=
  (getCurrentWeather_failure_fallback ratMath cachedManager 10 0
      { now := 500, nowLater := 500, fetch := FetchOutcome.notOk 500 }
      (by norm_num +decide [WeatherManager.shouldFetchWeather, cachedManager,
            WeatherManager.updateCache, WeatherManager.new, WEATHER_CONFIG, nullToZero, Distance.calculateDistance,
            Distance.toRadians, ratMath])
      (by decide) rfl).1 rainyDay rfl
    (by norm_num [cachedManager, WeatherManager.updateCache, WeatherManager.new,
          WEATHER_CONFIG, nullToZero])

/-- On the cache-hit path `getCurrentWeather` sends no request, leaves the
manager unchanged and returns what `getCachedWeather` returns at the second
clock reading; that is the cached data when this reading is strictly before
`expiresAt`. -/
theorem getCurrentWeather_cache_hit {α : Type} [LinearOrderedField α] [FloorRing α]
    (M : JsMath α) (s : WeatherManager α)
    (latitude longitude : α) (env : WeatherEnv α)
    (hhit : WeatherManager.shouldFetchWeather M s latitude longitude env.now = false) :
    WeatherManager.getCurrentWeather M s latitude longitude env =
        (WeatherManager.getCachedWeather s env.nowLater, s, []) ∧
    (env.nowLater < nullToZero s.weatherCache.expiresAt →
      (WeatherManager.getCurrentWeather M s latitude longitude env).1 = s.weatherCache.data ∧
      s.weatherCache.data ≠ none) := by
  have hdata : s.weatherCache.data.isSome = true := by
    cases hd : s.weatherCache.data with
    | none => simp [WeatherManager.shouldFetchWeather, hd] at hhit
    | some d => rfl
  refine ⟨by simp [WeatherManager.getCurrentWeather, hhit], ?_⟩
  intro hlt
  refine ⟨by simp [WeatherManager.getCurrentWeather, hhit, WeatherManager.getCachedWeather,
    hdata, hlt], ?_⟩
  intro hnone
  simp [hnone] at hdata

/-- C5, the code at the failing input.  `cachedManager` holds `rainyDay` for
the origin with `expiresAt = 900100`.  At time `900100`, for the origin,
`shouldFetchWeather` is false, yet `getCurrentWeather` returns `null`: the
hit test uses `now > expiresAt` and `getCachedWeather` uses
`now < expiresAt`. -/
theorem getCurrentWeather_hit_at_expiry_returns_null :
    WeatherManager.shouldFetchWeather ratMath cachedManager 0 0 900100 = false ∧
    WeatherManager.getCurrentWeather ratMath cachedManager 0 0
        { now := 900100, nowLater := 900100, fetch := FetchOutcome.networkError } =
      (none, cachedManager, []) ∧
    cachedManager.weatherCache.data = some rainyDay := by
  refine ⟨?_, ?_, ?_⟩ <;>
    norm_num +decide [WeatherManager.getCurrentWeather, WeatherManager.shouldFetchWeather,
      WeatherManager.getCachedWeather, cachedManager, WeatherManager.updateCache,
      WeatherManager.new, WEATHER_CONFIG,
      nullToZero, Distance.calculateDistance, Distance.toRadians, ratMath]

/-- C6. `shouldFetchWeather` is true exactly when the cache holds no data or
no location, or `now > expiresAt`, or the cached location is farther from the
query than `locationThreshold / 1000` km; that threshold is 5 km for a manager
built from the default configuration.  In particular, with data and location
cached, `now = expiresAt` and a displacement equal to the threshold, it is
false. -/
theorem shouldFetchWeather_iff {α : Type} [LinearOrderedField α]
    (M : JsMath α) (s : WeatherManager α)
    (latitude longitude now : α) :
    (WeatherManager.shouldFetchWeather M s latitude longitude now = true ↔
      (s.weatherCache.data = none ∨ s.weatherCache.location = none) ∨
      now > nullToZero s.weatherCache.expiresAt ∨
      ∃ location, s.weatherCache.location = some location ∧
        Distance.calculateDistance M location.latitude location.longitude latitude longitude >
          s.locationThreshold / 1000) ∧
    (∀ envKey, (WeatherManager.new (WEATHER_CONFIG envKey) : WeatherManager α).locationThreshold
        / 1000 = 5) ∧
    (∀ d location, s.weatherCache.data = some d → s.weatherCache.location = some location →
      s.weatherCache.expiresAt = some now →
      Distance.calculateDistance M location.latitude location.longitude latitude longitude =
        s.locationThreshold / 1000 →
      WeatherManager.shouldFetchWeather M s latitude longitude now = false) := by
  refine ⟨?_, ?_, ?_⟩
  · cases hd : s.weatherCache.data with
    | none => simp [WeatherManager.shouldFetchWeather, hd]
    | some d =>
      cases hl : s.weatherCache.location with
      | none => simp [WeatherManager.shouldFetchWeather, hd, hl]
      | some location =>
        by_cases hexp : now > nullToZero s.weatherCache.expiresAt
        · simp [WeatherManager.shouldFetchWeather, hd, hl, hexp]
        · simp [WeatherManager.shouldFetchWeather, hd, hl, hexp]
  · intro envKey
    norm_num [WeatherManager.new, WEATHER_CONFIG]
  · intro d location hd hl he hdist
    simp [WeatherManager.shouldFetchWeather, hd, hl, he, nullToZero, hdist]

/-- Witness for C6: `cachedManager` (default configuration, `rainyDay` cached
for the origin until time `900100`) under `fiveKmMath`, where every
displacement is exactly 5 km: at time `900100` no fetch is due. -/
theorem shouldFetchWeather_iff_witness :
    WeatherManager.shouldFetchWeather fiveKmMath cachedManager 10 0 900100 = false :=
  (shouldFetchWeather_iff fiveKmMath cachedManager 10 0 900100).2.2 rainyDay
    { latitude := 0, longitude := 0 } rfl rfl
    (by norm_num [cachedManager, WeatherManager.updateCache, WeatherManager.new,
          WEATHER_CONFIG])
    (by norm_num [Distance.calculateDistance, Distance.toRadians, fiveKmMath, ratMath,
          cachedManager, WeatherManager.updateCache, WeatherManager.new, WEATHER_CONFIG])

/-- The Haversine distance from a point to itself is `0` as soon as the `Math`
object is exact at `0` and `1`. -/
theorem calculateDistance_self_of_exact {α : Type} [LinearOrderedField α]
    (M : JsMath α) (hsin : M.sin 0 = 0) (hsqrt0 : M.sqrt 0 = 0) (hsqrt1 : M.sqrt 1 = 1)
    (hatan : M.atan2 0 1 = 0) (lat lon : α) :
    Distance.calculateDistance M lat lon lat lon = 0 := by
  simp [Distance.calculateDistance, Distance.toRadians, hsin, hsqrt0, hsqrt1, hatan]

/-- A call of `getCurrentWeather` that goes past the cache test and either has
no API key or gets a well-formed response stores a cache entry for the queried
coordinate that expires `cacheDuration` after the clock reading of
`updateCache`, and keeps the threshold. -/
theorem getCurrentWeather_success_cache {α : Type} [LinearOrderedField α] [FloorRing α]
    (M : JsMath α) (s : WeatherManager α) (latitude longitude : α) (env : WeatherEnv α)
    (hfetch : WeatherManager.shouldFetchWeather M s latitude longitude env.now = true)
    (hsucc : (s.apiKey = none ∨ s.apiKey = some "") ∨
      ∃ d, WeatherManager.fetchAndFormat env.fetch = .ok d) :
    ∃ d, (WeatherManager.getCurrentWeather M s latitude longitude env).1 = some d ∧
      (WeatherManager.getCurrentWeather M s latitude longitude env).2.1.weatherCache =
        { data := some d
          location := some { latitude := latitude, longitude := longitude }
          timestamp := some env.nowLater
          expiresAt := some (env.nowLater + s.cacheDuration) } ∧
      (WeatherManager.getCurrentWeather M s latitude longitude env).2.1.locationThreshold =
        s.locationThreshold := by
  by_cases hkey : (s.apiKey.isNone || decide (s.apiKey = some "")) = true
  · exact ⟨WeatherManager.getMockWeather, by
      simp [WeatherManager.getCurrentWeather, hfetch, hkey, WeatherManager.updateCache]⟩
  · rcases hsucc with hno | ⟨d, hd⟩
    · exfalso
      apply hkey
      rcases hno with h | h <;> simp [h]
    · exact ⟨d, by
        simp [WeatherManager.getCurrentWeather, hfetch, hkey, hd, WeatherManager.updateCache]⟩

/-- C7. `shouldFetchWeather` is true on the empty cache of a new manager.
After a `getCurrentWeather` for `(latitude, longitude)` that fetched
successfully (or served the synthetic snapshot for want of an API key) and
updated the cache at time `t = env.nowLater`, `shouldFetchWeather` is false
for the same coordinate at every `t'` with `t ≤ t' ≤ t + cacheDuration`, true
at every `t' > t + cacheDuration`, and true for every coordinate farther than
`locationThreshold / 1000` km from `(latitude, longitude)`.  The `Math` object
is assumed exact at `0` and `1` and the threshold non-negative. -/
theorem shouldFetchWeather_cache_cycle {α : Type} [LinearOrderedField α] [FloorRing α]
    (M : JsMath α) (s : WeatherManager α) (latitude longitude : α) (env : WeatherEnv α)
    (hsin : M.sin 0 = 0) (hsqrt0 : M.sqrt 0 = 0) (hsqrt1 : M.sqrt 1 = 1)
    (hatan : M.atan2 0 1 = 0) (hthr : 0 ≤ s.locationThreshold)
    (hfetch : WeatherManager.shouldFetchWeather M s latitude longitude env.now = true)
    (hsucc : (s.apiKey = none ∨ s.apiKey = some "") ∨
      ∃ d, WeatherManager.fetchAndFormat env.fetch = .ok d) :
    (∀ (config : WeatherConfig α) (lat lon now : α),
      WeatherManager.shouldFetchWeather M (WeatherManager.new config) lat lon now = true) ∧
    (∀ t', env.nowLater ≤ t' → t' ≤ env.nowLater + s.cacheDuration →
      WeatherManager.shouldFetchWeather M
        (WeatherManager.getCurrentWeather M s latitude longitude env).2.1
        latitude longitude t' = false) ∧
    (∀ t' lat lon, env.nowLater + s.cacheDuration < t' →
      WeatherManager.shouldFetchWeather M
        (WeatherManager.getCurrentWeather M s latitude longitude env).2.1 lat lon t' = true) ∧
    (∀ t' lat lon,
      Distance.calculateDistance M latitude longitude lat lon > s.locationThreshold / 1000 →
      WeatherManager.shouldFetchWeather M
        (WeatherManager.getCurrentWeather M s latitude longitude env).2.1 lat lon t' = true) := by
  obtain ⟨d, -, hcache, hthr'⟩ :=
    getCurrentWeather_success_cache M s latitude longitude env hfetch hsucc
  have hself := calculateDistance_self_of_exact M hsin hsqrt0 hsqrt1 hatan latitude longitude
  have hpos : (0 : α) ≤ s.locationThreshold / 1000 := div_nonneg hthr (by norm_num)
  refine ⟨?_, ?_, ?_, ?_⟩
  · intro config lat lon now
    simp [WeatherManager.shouldFetchWeather, WeatherManager.new]
  · intro t' _ hle
    simp [WeatherManager.shouldFetchWeather, hcache, hthr', nullToZero, not_lt.mpr hle, hself,
      not_lt.mpr hpos]
  · intro t' lat lon hlt
    simp [WeatherManager.shouldFetchWeather, hcache, nullToZero, hlt]
  · intro t' lat lon hfar
    simp only [gt_iff_lt] at hfar
    simp [WeatherManager.shouldFetchWeather, hcache, hthr', nullToZero, hfar]

/-- Witness for C7: a new manager with the default configuration and no API
key, asked for the origin at time `100`, caches the synthetic snapshot; the
hypotheses hold for `ratMath`. -/
theorem shouldFetchWeather_cache_cycle_witness :
    WeatherManager.shouldFetchWeather ratMath
      (WeatherManager.getCurrentWeather ratMath
        (WeatherManager.new (WEATHER_CONFIG none) : WeatherManager ℚ) 0 0
        { now := 100, nowLater := 100, fetch := FetchOutcome.networkError }).2.1
      0 0 900100 = false :=
  (shouldFetchWeather_cache_cycle ratMath
      (WeatherManager.new (WEATHER_CONFIG none) : WeatherManager ℚ) 0 0
      { now := 100, nowLater := 100, fetch := FetchOutcome.networkError }
      rfl rfl rfl (by norm_num [ratMath])
      (by norm_num [WeatherManager.new, WEATHER_CONFIG])
      (by simp [WeatherManager.shouldFetchWeather, WeatherManager.new])
      (Or.inl (Or.inl rfl))).2.1 900100
    (by norm_num) (by norm_num [WeatherManager.new, WEATHER_CONFIG])

/-- C8. `getCyclistCondition` is the total mapping of the specification: the
code ranges `[200,300)`, `[300,600)`, `[600,700)`, `[700,800)` give
`stormy`, `rainy`, `snowy`, `foggy` whatever the temperature; code `800`
gives `perfect` for `10 ≤ temperature ≤ 25`, `hot` above 25, `cold` below 10;
a code above `800` gives `good`, `hot`, `cold` on the same split; a code
below `200` gives `unknown`. -/
theorem getCyclistCondition_table {α : Type} [LinearOrderedField α]
    (weatherId : ℤ) (temperature : α) :
    (200 ≤ weatherId ∧ weatherId < 300 →
      WeatherManager.getCyclistCondition weatherId temperature = "stormy") ∧
    (300 ≤ weatherId ∧ weatherId < 600 →
      WeatherManager.getCyclistCondition weatherId temperature = "rainy") ∧
    (600 ≤ weatherId ∧ weatherId < 700 →
      WeatherManager.getCyclistCondition weatherId temperature = "snowy") ∧
    (700 ≤ weatherId ∧ weatherId < 800 →
      WeatherManager.getCyclistCondition weatherId temperature = "foggy") ∧
    (weatherId = 800 →
      (10 ≤ temperature ∧ temperature ≤ 25 →
        WeatherManager.getCyclistCondition weatherId temperature = "perfect") ∧
      (temperature > 25 →
        WeatherManager.getCyclistCondition weatherId temperature = "hot") ∧
      (temperature < 10 →
        WeatherManager.getCyclistCondition weatherId temperature = "cold")) ∧
    (weatherId > 800 →
      (10 ≤ temperature ∧ temperature ≤ 25 →
        WeatherManager.getCyclistCondition weatherId temperature = "good") ∧
      (temperature > 25 →
        WeatherManager.getCyclistCondition weatherId temperature = "hot") ∧
      (temperature < 10 →
        WeatherManager.getCyclistCondition weatherId temperature = "cold")) ∧
    (weatherId < 200 →
      WeatherManager.getCyclistCondition weatherId temperature = "unknown") := by
  refine ⟨?_, ?_, ?_, ?_, ?_, ?_, ?_⟩
  · rintro ⟨h1, h2⟩
    simp [WeatherManager.getCyclistCondition, h1, h2]
  · rintro ⟨h1, h2⟩
    have : ¬ weatherId < 300 := by omega
    simp [WeatherManager.getCyclistCondition, h1, h2, this]
  · rintro ⟨h1, h2⟩
    have : ¬ weatherId < 300 := by omega
    have : ¬ weatherId < 600 := by omega
    simp [WeatherManager.getCyclistCondition, h1, h2, *]
  · rintro ⟨h1, h2⟩
    have : ¬ weatherId < 300 := by omega
    have : ¬ weatherId < 600 := by omega
    have : ¬ weatherId < 700 := by omega
    simp [WeatherManager.getCyclistCondition, h1, h2, *]
  · intro h
    subst h
    refine ⟨?_, ?_, ?_⟩
    · rintro ⟨h1, h2⟩
      simp [WeatherManager.getCyclistCondition, not_lt.mpr h1, not_lt.mpr h2]
    · intro h1
      simp only [gt_iff_lt] at h1
      simp [WeatherManager.getCyclistCondition, h1]
    · intro h1
      have : ¬ 25 < temperature := not_lt.mpr (le_trans h1.le (by norm_num))
      simp [WeatherManager.getCyclistCondition, h1, this]
  · intro h
    have h' : 800 < weatherId := h
    have e1 : ¬ weatherId < 300 := by omega
    have e2 : ¬ weatherId < 600 := by omega
    have e3 : ¬ weatherId < 700 := by omega
    have e4 : ¬ weatherId < 800 := by omega
    have e5 : ¬ weatherId = 800 := by omega
    refine ⟨?_, ?_, ?_⟩
    · rintro ⟨h1, h2⟩
      simp [WeatherManager.getCyclistCondition, e1, e2, e3, e4, e5, h', not_lt.mpr h1,
        not_lt.mpr h2]
    · intro h1
      simp only [gt_iff_lt] at h1
      simp [WeatherManager.getCyclistCondition, e1, e2, e3, e4, e5, h', h1]
    · intro h1
      have : ¬ 25 < temperature := not_lt.mpr (le_trans h1.le (by norm_num))
      simp [WeatherManager.getCyclistCondition, e1, e2, e3, e4, e5, h', h1, this]
  · intro h
    have e1 : ¬ 200 ≤ weatherId := by omega
    have e2 : ¬ 300 ≤ weatherId := by omega
    have e3 : ¬ 600 ≤ weatherId := by omega
    have e4 : ¬ 700 ≤ weatherId := by omega
    have e5 : ¬ weatherId = 800 := by omega
    have e6 : ¬ 800 < weatherId := by omega
    simp [WeatherManager.getCyclistCondition, e1, e2, e3, e4, e5, e6]

/-- Witness for C8, the three fixtures of the specification:
`(200, 20)` is `stormy`, `(800, 15)` is `perfect`, `(801, 28)` is `hot`. -/
theorem getCyclistCondition_table_witness :
    WeatherManager.getCyclistCondition 200 (20 : ℚ) = "stormy" ∧
    WeatherManager.getCyclistCondition 800 (15 : ℚ) = "perfect" ∧
    WeatherManager.getCyclistCondition 801 (28 : ℚ) = "hot" :=
  ⟨(getCyclistCondition_table 200 (20 : ℚ)).1 (by decide),
   ((getCyclistCondition_table 800 (15 : ℚ)).2.2.2.2.1 rfl).1 (by norm_num),
   ((getCyclistCondition_table 801 (28 : ℚ)).2.2.2.2.2.1 (by decide)).2.1 (by norm_num)⟩

/-- C9. `getCyclingRecommendation` forbids riding exactly for storms, snow and
cold rain: `canRide` is false if and only if the condition is `stormy` or
`snowy`, or it is `rainy` and the temperature is at most 5. -/
theorem getCyclingRecommendation_canRide_false_iff {α : Type} [LinearOrderedField α]
    (weather : WeatherData α) :
    (WeatherManager.getCyclingRecommendation weather).canRide = false ↔
      (weather.condition = "stormy" ∨ weather.condition = "snowy") ∨
      (weather.condition = "rainy" ∧ weather.temperature ≤ 5) := by
  by_cases h1 : weather.condition = "stormy"
  · simp [WeatherManager.getCyclingRecommendation, h1]
  by_cases h2 : weather.condition = "snowy"
  · simp [WeatherManager.getCyclingRecommendation, h2]
  by_cases h3 : weather.condition = "rainy"
  · simp [WeatherManager.getCyclingRecommendation, h3]
  simp only [WeatherManager.getCyclingRecommendation, h1, h2, h3, decide_False, Bool.or_self,
    Bool.false_eq_true, if_false, or_self, false_and]
  split_ifs <;> simp

/-- C10. `getCyclingRecommendation` returns the result of the first rule that
applies in the order storm/snow, rain, fog, cold (`temperature < 5`), hot
(`temperature > 30`), high wind (`windSpeed > 25`), else the default.  So a
foggy snapshot gets the fog result whatever its temperature, and a snapshot
that is neither stormy, snowy, rainy nor foggy and has `temperature < 5` gets
the cold result whatever its wind speed. -/
theorem getCyclingRecommendation_precedence {α : Type} [LinearOrderedField α]
    (weather : WeatherData α) :
    WeatherManager.getCyclingRecommendation weather =
      WeatherManager.recommendByPrecedence weather ∧
    (weather.condition = "foggy" →
      WeatherManager.getCyclingRecommendation weather =
        { canRide := true
          message := "Ride with extra caution - reduced visibility"
          gear := ["helmet", "lights", "reflective clothing", "bright colors"] }) ∧
    (weather.condition ≠ "stormy" → weather.condition ≠ "snowy" →
      weather.condition ≠ "rainy" → weather.condition ≠ "foggy" →
      weather.temperature < 5 →
      WeatherManager.getCyclingRecommendation weather =
        { canRide := true
          message := "Cold weather - dress warmly"
          gear := ["helmet", "thermal layers", "gloves", "neck warmer", "lights"] }) := by
  refine ⟨?_, ?_, ?_⟩
  · by_cases h1 : weather.condition = "stormy"
    · simp [WeatherManager.getCyclingRecommendation, WeatherManager.recommendByPrecedence,
        WeatherManager.recommendationRules, List.find?, h1]
    by_cases h2 : weather.condition = "snowy"
    · simp [WeatherManager.getCyclingRecommendation, WeatherManager.recommendByPrecedence,
        WeatherManager.recommendationRules, List.find?, h2]
    by_cases h3 : weather.condition = "rainy"
    · simp [WeatherManager.getCyclingRecommendation, WeatherManager.recommendByPrecedence,
        WeatherManager.recommendationRules, List.find?, h3]
    by_cases h4 : weather.condition = "foggy"
    · simp [WeatherManager.getCyclingRecommendation, WeatherManager.recommendByPrecedence,
        WeatherManager.recommendationRules, List.find?, h4]
    by_cases h5 : weather.temperature < 5
    · simp [WeatherManager.getCyclingRecommendation, WeatherManager.recommendByPrecedence,
        WeatherManager.recommendationRules, List.find?, h1, h2, h3, h4, h5]
    by_cases h6 : weather.temperature > 30
    · simp [WeatherManager.getCyclingRecommendation, WeatherManager.recommendByPrecedence,
        WeatherManager.recommendationRules, List.find?, h1, h2, h3, h4, h5, h6]
    by_cases h7 : weather.windSpeed > 25
    · simp [WeatherManager.getCyclingRecommendation, WeatherManager.recommendByPrecedence,
        WeatherManager.recommendationRules, List.find?, h1, h2, h3, h4, h5, h6, h7]
    · simp [WeatherManager.getCyclingRecommendation, WeatherManager.recommendByPrecedence,
        WeatherManager.recommendationRules, List.find?, h1, h2, h3, h4, h5, h6, h7]
  · intro h
    simp [WeatherManager.getCyclingRecommendation, h]
  · intro h1 h2 h3 h4 h5
    simp [WeatherManager.getCyclingRecommendation, h1, h2, h3, h4, h5]

/-- Witness for C10: a foggy snapshot at 2 degrees gets the fog result, and a
cloudy (`good`) snapshot at 2 degrees with a wind of 40 km/h gets the cold
result. -/
theorem getCyclingRecommendation_precedence_witness :
    (WeatherManager.getCyclingRecommendation
        { rainyDay with condition := "foggy", temperature := 2 }).message =
      "Ride with extra caution - reduced visibility" ∧
    (WeatherManager.getCyclingRecommendation
        { rainyDay with condition := "good", temperature := 2, windSpeed := 40 }).message =
      "Cold weather - dress warmly" :=
  ⟨congrArg Recommendation.message
      ((getCyclingRecommendation_precedence
        { rainyDay with condition := "foggy", temperature := 2 }).2.1 rfl),
   congrArg Recommendation.message
      ((getCyclingRecommendation_precedence
        { rainyDay with condition := "good", temperature := 2, windSpeed := 40 }).2.2
        (by decide) (by decide) (by decide) (by decide) (by norm_num))⟩

/-- C11, counterexample.  A ride started at time `1000` and stopped at time
`5000` reports a duration of 4 s at the stop; read again at time `9000`, with
`isTracking` false, the duration is 8 s, not the 4 s it had at stop time. -/
theorem getTrackingData_duration_grows_after_stop :
    (GPSManager.stopTracking startedManager 5000).1.duration = 4 ∧
    (GPSManager.stopTracking startedManager 5000).2.1.isTracking = false ∧
    (GPSManager.getTrackingData (GPSManager.stopTracking startedManager 5000).2.1 9000).duration
      = 8 ∧
    (GPSManager.getTrackingData (GPSManager.stopTracking startedManager 5000).2.1 9000).duration
      ≠ (GPSManager.stopTracking startedManager 5000).1.duration := by
  refine ⟨?_, ?_, ?_, ?_⟩ <;>
    norm_num [GPSManager.stopTracking, GPSManager.getTrackingData, startedManager,
      GPSManager.startTracking, GPSManager.requestPermissions, startEnv, GPSManager.new,
      mathFloor, fixAt]

/-- C11, amended.  The duration reported by `getTrackingData` is
`floor((now - startTime) / 1000)` whenever `startTime` is set (not `null` and
not `0`), whatever `isTracking` is; it is `0` with no `startTime`.
`stopTracking` keeps `startTime`, so after a stop the duration read at a
later `now` is still `floor((now - startTime) / 1000)`. -/
theorem getTrackingData_duration {α : Type} [LinearOrderedField α] [FloorRing α]
    (s : GPSManager α) (now : α) :
    (∀ t, s.startTime = some t → t ≠ 0 →
      (GPSManager.getTrackingData s now).duration = mathFloor ((now - t) / 1000)) ∧
    (s.startTime = none → (GPSManager.getTrackingData s now).duration = 0) ∧
    (∀ t nowStop, s.startTime = some t → t ≠ 0 →
      (GPSManager.getTrackingData (GPSManager.stopTracking s nowStop).2.1 now).duration =
        mathFloor ((now - t) / 1000)) := by
  refine ⟨?_, ?_, ?_⟩
  · intro t ht h0
    simp [GPSManager.getTrackingData, ht, h0]
  · intro hnone
    simp [GPSManager.getTrackingData, hnone, mathFloor]
  · intro t nowStop ht h0
    have hstart : (GPSManager.stopTracking s nowStop).2.1.startTime = some t := by
      simp only [GPSManager.stopTracking]
      split <;> simpa using ht
    simp [GPSManager.getTrackingData, hstart, h0]

/-- Witness for C11 (amended) on `startedManager`, started at time `1000`:
the duration at time `5000` is `floor(4000 / 1000)`, and after a stop at
`5000` the duration at time `9000` is `floor(8000 / 1000)`. -/
theorem getTrackingData_duration_witness :
    (GPSManager.getTrackingData startedManager 5000).duration =
      mathFloor ((5000 - 1000) / 1000 : ℚ) ∧
    (GPSManager.getTrackingData (GPSManager.stopTracking startedManager 5000).2.1 9000).duration
      = mathFloor ((9000 - 1000) / 1000 : ℚ) :=
  ⟨(getTrackingData_duration startedManager 5000).1 1000
      (by simp [startedManager, GPSManager.startTracking, GPSManager.requestPermissions,
            startEnv])
      (by norm_num),
   (getTrackingData_duration startedManager 9000).2.2 1000 5000
      (by simp [startedManager, GPSManager.startTracking, GPSManager.requestPermissions,
            startEnv])
      (by norm_num)⟩

/-- C12, counterexample.  `rideManager` started at time `1000` and has 3 km
on the clock.  At time `601500` the snapshot reports a duration of 600 s and
an average speed of `3 / (600.5 / 3600)`, not `3 / (600 / 3600) = 18`.  With
4 m on the clock at time `1500` the snapshot reports a duration of 0 s and an
average speed of `28.8`, not `0`. -/
theorem getTrackingData_averageSpeed_not_floored :
    (GPSManager.getTrackingData rideManager 601500).duration = 600 ∧
    (GPSManager.getTrackingData rideManager 601500).averageSpeed = 21600 / 1201 ∧
    (GPSManager.getTrackingData rideManager 601500).averageSpeed ≠
      (GPSManager.getTrackingData rideManager 601500).totalDistance /
        ((GPSManager.getTrackingData rideManager 601500).duration / 3600) ∧
    (GPSManager.getTrackingData { rideManager with totalDistance := 1 / 250 } 1500).duration
      = 0 ∧
    (GPSManager.getTrackingData { rideManager with totalDistance := 1 / 250 } 1500).averageSpeed
      = 144 / 5 := by
  refine ⟨?_, ?_, ?_, ?_, ?_⟩ <;>
    norm_num [GPSManager.getTrackingData, rideManager, GPSManager.calculateSpeed, mathFloor]

/-- C12, amended.  With `e = (now - startTime) / 1000` the elapsed time in
seconds before flooring, the average speed of a snapshot is
`totalDistance / (e / 3600)` when `e > 0`, and `0` when `e ≤ 0` or there is no
`startTime`.  It is `totalDistance / (duration / 3600)` for the reported
duration whenever `e` is a whole number of seconds. -/
theorem getTrackingData_averageSpeed {α : Type} [LinearOrderedField α] [FloorRing α]
    (s : GPSManager α) (now : α) :
    (∀ t, s.startTime = some t → t ≠ 0 → 0 < (now - t) / 1000 →
      (GPSManager.getTrackingData s now).averageSpeed =
        s.totalDistance / ((now - t) / 1000 / 3600)) ∧
    (∀ t, s.startTime = some t → (now - t) / 1000 ≤ 0 →
      (GPSManager.getTrackingData s now).averageSpeed = 0) ∧
    (s.startTime = none → (GPSManager.getTrackingData s now).averageSpeed = 0) ∧
    (∀ t, s.startTime = some t → t ≠ 0 → 0 < (now - t) / 1000 →
      mathFloor ((now - t) / 1000) = (now - t) / 1000 →
      (GPSManager.getTrackingData s now).averageSpeed =
        (GPSManager.getTrackingData s now).totalDistance /
          ((GPSManager.getTrackingData s now).duration / 3600)) := by
  have key : ∀ t, s.startTime = some t → t ≠ 0 → 0 < (now - t) / 1000 →
      (GPSManager.getTrackingData s now).averageSpeed =
        s.totalDistance / ((now - t) / 1000 / 3600) := by
    intro t ht h0 hpos
    have hne : (now - t) / 1000 * 1000 ≠ 0 := by
      have : (0 : α) < (now - t) / 1000 * 1000 := mul_pos hpos (by norm_num)
      exact ne_of_gt this
    simp only [GPSManager.getTrackingData, ht, h0, ne_eq, not_false_eq_true, if_true,
      gt_iff_lt, if_pos hpos, GPSManager.calculateSpeed, if_neg hne]
    congr 1
    ring
  refine ⟨key, ?_, ?_, ?_⟩
  · intro t ht hle
    by_cases h0 : t = 0
    · simp [GPSManager.getTrackingData, ht, h0]
    · simp [GPSManager.getTrackingData, ht, h0, not_lt.mpr hle]
  · intro hnone
    simp [GPSManager.getTrackingData, hnone]
  · intro t ht h0 hpos hwhole
    rw [key t ht h0 hpos]
    simp [GPSManager.getTrackingData, ht, h0, hwhole]

/-- Witness for C12 (amended) on `rideManager` (3 km, started at `1000`): at
time `601000`, 600 whole seconds have elapsed and the average speed is
`3 / (600 / 3600)`. -/
theorem getTrackingData_averageSpeed_witness :
    (GPSManager.getTrackingData rideManager 601000).averageSpeed =
      rideManager.totalDistance / ((601000 - 1000) / 1000 / 3600) :=
  (getTrackingData_averageSpeed rideManager 601000).1 1000 rfl (by norm_num) (by norm_num)

/-- The Haversine distance between two points with latitudes in `[-90, 90]` is
not negative, for every `Math` object whose `sqrt` and `atan2` are not
negative on non-negative arguments and whose `cos` is not negative on the
radians of a latitude. -/
theorem calculateDistance_nonneg_of {α : Type} [LinearOrderedField α] (M : JsMath α)
    (hsqrt : ∀ x, 0 ≤ x → 0 ≤ M.sqrt x)
    (hatan : ∀ y x, 0 ≤ y → 0 ≤ M.atan2 y x)
    (hcos : ∀ d, -90 ≤ d → d ≤ 90 → 0 ≤ M.cos (Distance.toRadians M d))
    (lat1 lon1 lat2 lon2 : α) (h1 : -90 ≤ lat1 ∧ lat1 ≤ 90) (h2 : -90 ≤ lat2 ∧ lat2 ≤ 90) :
    0 ≤ Distance.calculateDistance M lat1 lon1 lat2 lon2 := by
  have hc1 := hcos lat1 h1.1 h1.2
  have hc2 := hcos lat2 h2.1 h2.2
  have ha : 0 ≤
      M.sin (Distance.toRadians M (lat2 - lat1) / 2) *
          M.sin (Distance.toRadians M (lat2 - lat1) / 2) +
        M.cos (Distance.toRadians M lat1) * M.cos (Distance.toRadians M lat2) *
          M.sin (Distance.toRadians M (lon2 - lon1) / 2) *
          M.sin (Distance.toRadians M (lon2 - lon1) / 2) := by
    have e1 := mul_self_nonneg (M.sin (Distance.toRadians M (lat2 - lat1) / 2))
    have e2 := mul_self_nonneg (M.sin (Distance.toRadians M (lon2 - lon1) / 2))
    have e3 := mul_nonneg (mul_nonneg hc1 hc2) e2
    rw [← mul_assoc] at e3
    exact add_nonneg e1 e3
  simp only [Distance.calculateDistance]
  exact mul_nonneg (by norm_num) (mul_nonneg (by norm_num) (hatan _ _ (hsqrt _ ha)))

/-- One `updateLocation` does not decrease the total distance when the
distance from the current location to the new fix is not negative. -/
theorem updateLocation_totalDistance_le {α : Type} [LinearOrderedField α] [FloorRing α]
    (M : JsMath α) (s : GPSManager α) (location : LocationObject α) (now : α)
    (hdist : ∀ cur, s.currentLocation = some cur →
      0 ≤ Distance.calculateDistance M cur.latitude cur.longitude
        location.coords.latitude location.coords.longitude) :
    s.totalDistance ≤ (GPSManager.updateLocation M s location now).1.totalDistance := by
  cases hcur : s.currentLocation with
  | none => simp [GPSManager.updateLocation, hcur]
  | some cur =>
    have hd := hdist cur hcur
    simp only [GPSManager.updateLocation, hcur, GPSManager.calculateDistance]
    split_ifs <;> simp [hd]

/-- Over a sequence of `updateLocation` calls whose fixes have latitudes in
`[-90, 90]`, started from a state whose current location (if any) has such a
latitude, the total distance does not decrease. -/
theorem updateLocations_totalDistance_le {α : Type} [LinearOrderedField α] [FloorRing α]
    (M : JsMath α)
    (hsqrt : ∀ x, 0 ≤ x → 0 ≤ M.sqrt x)
    (hatan : ∀ y x, 0 ≤ y → 0 ≤ M.atan2 y x)
    (hcos : ∀ d, -90 ≤ d → d ≤ 90 → 0 ≤ M.cos (Distance.toRadians M d))
    (fixes : List (LocationObject α × α)) (s : GPSManager α)
    (hstate : ∀ cur, s.currentLocation = some cur → -90 ≤ cur.latitude ∧ cur.latitude ≤ 90)
    (hfixes : ∀ f ∈ fixes, -90 ≤ f.1.coords.latitude ∧ f.1.coords.latitude ≤ 90) :
    s.totalDistance ≤ (GPSManager.updateLocations M s fixes).totalDistance := by
  induction fixes generalizing s with
  | nil => simp [GPSManager.updateLocations]
  | cons f rest ih =>
    obtain ⟨location, now⟩ := f
    have hloc := hfixes (location, now) (List.mem_cons_self _ _)
    have hstep := updateLocation_totalDistance_le M s location now
      (fun cur hcur => calculateDistance_nonneg_of M hsqrt hatan hcos _ _ _ _
        (hstate cur hcur) hloc)
    have hnext : ∀ cur, (GPSManager.updateLocation M s location now).1.currentLocation =
        some cur → -90 ≤ cur.latitude ∧ cur.latitude ≤ 90 := by
      intro cur hcur
      simp only [GPSManager.updateLocation, Option.some.injEq] at hcur
      rw [← hcur]
      exact hloc
    have hrest := ih (GPSManager.updateLocation M s location now).1 hnext
      (fun f hf => hfixes f (List.mem_cons_of_mem _ hf))
    simpa [GPSManager.updateLocations] using le_trans hstep hrest

/-- In exact arithmetic `totalDistance` never decreases: for every state whose
current location (if any) has a latitude in `[-90, 90]` and every fix with a
latitude in `[-90, 90]`, the total distance after `updateLocation` is at least
the total before, and so is the total after any sequence of `updateLocation`
calls with such fixes.  The `Math` object is assumed to have `sqrt` and
`atan2` non-negative on non-negative arguments and `cos` non-negative on the
radians of a latitude, as the mathematical functions are.  The `Math` object
of double precision does not meet these assumptions where the haversine term
rounds above `1`: there the distance, and from then on the total, is `NaN`. -/
theorem updateLocation_totalDistance_mono {α : Type} [LinearOrderedField α] [FloorRing α]
    (M : JsMath α)
    (hsqrt : ∀ x, 0 ≤ x → 0 ≤ M.sqrt x)
    (hatan : ∀ y x, 0 ≤ y → 0 ≤ M.atan2 y x)
    (hcos : ∀ d, -90 ≤ d → d ≤ 90 → 0 ≤ M.cos (Distance.toRadians M d))
    (s : GPSManager α) (location : LocationObject α) (now : α)
    (hstate : ∀ cur, s.currentLocation = some cur → -90 ≤ cur.latitude ∧ cur.latitude ≤ 90)
    (hfix : -90 ≤ location.coords.latitude ∧ location.coords.latitude ≤ 90) :
    s.totalDistance ≤ (GPSManager.updateLocation M s location now).1.totalDistance ∧
    (∀ fixes : List (LocationObject α × α),
      (∀ f ∈ fixes, -90 ≤ f.1.coords.latitude ∧ f.1.coords.latitude ≤ 90) →
      s.totalDistance ≤ (GPSManager.updateLocations M s fixes).totalDistance) :=
  ⟨updateLocation_totalDistance_le M s location now
      (fun cur hcur => calculateDistance_nonneg_of M hsqrt hatan hcos _ _ _ _
        (hstate cur hcur) hfix),
   fun fixes hfixes =>
    updateLocations_totalDistance_le M hsqrt hatan hcos fixes s hstate hfixes⟩

/-- The real cosine is not negative on the radians of a latitude in
`[-90, 90]`. -/
theorem realMath_cos_nonneg (d : ℝ) (h1 : -90 ≤ d) (h2 : d ≤ 90) :
    0 ≤ realMath.cos (Distance.toRadians realMath d) := by
  simp only [realMath, Distance.toRadians]
  apply Real.cos_nonneg_of_mem_Icc
  constructor
  · nlinarith [Real.pi_pos]
  · nlinarith [Real.pi_pos]

/-- An instance of `updateLocation_totalDistance_mono` for the real `Math`
object: from `realRide`, stationed at the origin, a fix at latitude `1` does
not decrease the total distance. -/
theorem updateLocation_totalDistance_mono_witness :
    realRide.totalDistance ≤
      (GPSManager.updateLocation realMath realRide
        { coords := { latitude := 1, longitude := 0, accuracy := 10 }, timestamp := 2000 }
        2000).1.totalDistance :=
  (updateLocation_totalDistance_mono realMath
      (fun x _ => Real.sqrt_nonneg x)
      (fun _ _ hy => Complex.arg_nonneg_iff.mpr hy)
      realMath_cos_nonneg
      realRide
      { coords := { latitude := 1, longitude := 0, accuracy := 10 }, timestamp := 2000 }
      2000
      (by intro cur hcur
          simp only [realRide, Option.some.injEq] at hcur
          rw [← hcur]; norm_num)
      (by norm_num)).1

/-- One `updateLocation` appends the delivered fix to the history. -/
theorem updateLocation_locationHistory {α : Type} [LinearOrderedField α] [FloorRing α]
    (M : JsMath α) (s : GPSManager α) (location : LocationObject α) (now : α) :
    (GPSManager.updateLocation M s location now).1.locationHistory =
      s.locationHistory ++ [location.toFix] := by
  cases hcur : s.currentLocation with
  | none => simp [GPSManager.updateLocation, hcur, LocationObject.toFix]
  | some cur =>
    simp only [GPSManager.updateLocation, hcur]
    split_ifs <;> rfl

/-- A sequence of `updateLocation` calls appends the delivered fixes to the
history, in the order delivered. -/
theorem updateLocations_locationHistory {α : Type} [LinearOrderedField α] [FloorRing α]
    (M : JsMath α) (fixes : List (LocationObject α × α)) (s : GPSManager α) :
    (GPSManager.updateLocations M s fixes).locationHistory =
      s.locationHistory ++ fixes.map (fun f => f.1.toFix) := by
  induction fixes generalizing s with
  | nil => simp [GPSManager.updateLocations]
  | cons f rest ih =>
    obtain ⟨location, now⟩ := f
    simp [GPSManager.updateLocations, ih, updateLocation_locationHistory]

/-- C14, counterexample.  After the successful start `startedManager` (initial
fix stamped `1000`), one `updateLocation` with a fix stamped `500` leaves a
history whose timestamps are `[1000, 500]`: not in non-decreasing order. -/
theorem locationHistory_not_chronological :
    (GPSManager.startTracking (GPSManager.new : GPSManager ℚ) (some 7) startEnv).1 = true ∧
    ((GPSManager.updateLocations ratMath startedManager
        [(fixAt 1 500 10, 2000)]).locationHistory.map (fun f => f.timestamp)) = [1000, 500] ∧
    ¬ List.Sorted (fun a b => a ≤ b)
      ((GPSManager.updateLocations ratMath startedManager
        [(fixAt 1 500 10, 2000)]).locationHistory.map (fun f => f.timestamp)) := by
  have h : ((GPSManager.updateLocations ratMath startedManager
        [(fixAt 1 500 10, 2000)]).locationHistory.map (fun f => f.timestamp)) = [1000, 500] := by
    simp [updateLocations_locationHistory, startedManager, GPSManager.startTracking,
      GPSManager.requestPermissions, startEnv, GPSManager.new, fixAt, LocationObject.toFix]
  refine ⟨?_, h, ?_⟩
  · simp [GPSManager.startTracking, GPSManager.requestPermissions, startEnv]
  · rw [h]
    norm_num [List.Sorted]

/-- C14, amended.  After a `startTracking` that obtained permission and an
initial fix, followed by any sequence of `updateLocation` calls, the history
is the initial fix followed by the delivered fixes in arrival order; its
timestamps are in non-decreasing order whenever the timestamps of the initial
fix and of the delivered fixes are. -/
theorem locationHistory_arrival_order {α : Type} [LinearOrderedField α] [FloorRing α]
    (M : JsMath α) (s : GPSManager α) (onLocationUpdate : Option Callback) (env : StartEnv α)
    (initial : LocationObject α) (fixes : List (LocationObject α × α))
    (hperm : env.permission = some PermissionStatus.granted)
    (hinit : env.initialLocation = some initial) :
    (GPSManager.updateLocations M
        (GPSManager.startTracking s onLocationUpdate env).2.1 fixes).locationHistory =
      initial.toFix :: fixes.map (fun f => f.1.toFix) ∧
    (List.Sorted (fun a b => a ≤ b)
        (initial.timestamp :: fixes.map (fun f => f.1.timestamp)) →
      List.Sorted (fun a b => a ≤ b)
        ((GPSManager.updateLocations M
          (GPSManager.startTracking s onLocationUpdate env).2.1 fixes).locationHistory.map
            (fun f => f.timestamp))) := by
  have hstart : (GPSManager.startTracking s onLocationUpdate env).2.1.locationHistory =
      [initial.toFix] := by
    simp only [GPSManager.startTracking, GPSManager.requestPermissions, hperm, hinit]
    cases onLocationUpdate <;> cases env.watch <;> simp [LocationObject.toFix]
  have hhist := updateLocations_locationHistory M fixes
    (GPSManager.startTracking s onLocationUpdate env).2.1
  rw [hstart] at hhist
  refine ⟨by simpa using hhist, ?_⟩
  intro hsorted
  rw [hhist]
  simpa [LocationObject.toFix, Function.comp_def] using hsorted

/-- Witness for C14 (amended): after the start of `startEnv` (initial fix
stamped `1000`) and fixes stamped `2000` and `3000`, the history holds the
three fixes in that order. -/
theorem locationHistory_arrival_order_witness :
    (GPSManager.updateLocations ratMath
        (GPSManager.startTracking (GPSManager.new : GPSManager ℚ) (some 7) startEnv).2.1
        [(fixAt 1 2000 10, 2000), (fixAt 2 3000 10, 3000)]).locationHistory =
      [(fixAt 0 1000 5).toFix, (fixAt 1 2000 10).toFix, (fixAt 2 3000 10).toFix] :=
  (locationHistory_arrival_order ratMath (GPSManager.new : GPSManager ℚ) (some 7) startEnv
      (fixAt 0 1000 5) [(fixAt 1 2000 10, 2000), (fixAt 2 3000 10, 3000)] rfl rfl).1

/-- One `updateLocation` from a state with a current location stores that
location as the previous one. -/
theorem updateLocation_previousLocation {α : Type} [LinearOrderedField α] [FloorRing α]
    (M : JsMath α) (s : GPSManager α) (location : LocationObject α) (now : α)
    (cur : LocationFix α) (hcur : s.currentLocation = some cur) :
    (GPSManager.updateLocation M s location now).1.previousLocation = some cur := by
  simp only [GPSManager.updateLocation, hcur]
  split_ifs <;> rfl

/-- C15. Bookkeeping step of `updateLocation`: after the call the current
location is the new fix and the history is the old history with that fix
appended at the end; when a current location existed before, the previous
location is that old current location. -/
theorem updateLocation_bookkeeping {α : Type} [LinearOrderedField α] [FloorRing α]
    (M : JsMath α) (s : GPSManager α) (location : LocationObject α) (now : α) :
    (GPSManager.updateLocation M s location now).1.currentLocation = some location.toFix ∧
    (GPSManager.updateLocation M s location now).1.locationHistory =
      s.locationHistory ++ [location.toFix] ∧
    (∀ cur, s.currentLocation = some cur →
      (GPSManager.updateLocation M s location now).1.previousLocation = some cur) :=
  ⟨rfl, updateLocation_locationHistory M s location now,
   fun cur hcur => updateLocation_previousLocation M s location now cur hcur⟩

/-- Witness for C15 on `rideManager`: the fix at the origin stamped `1000`
becomes the previous location. -/
theorem updateLocation_bookkeeping_witness :
    (GPSManager.updateLocation ratMath rideManager (fixAt 1 2000 10) 2000).1.previousLocation =
      some { latitude := 0, longitude := 0, timestamp := 1000, accuracy := 5 } :=
  (updateLocation_bookkeeping ratMath rideManager (fixAt 1 2000 10) 2000).2.2
    { latitude := 0, longitude := 0, timestamp := 1000, accuracy := 5 } rfl

/-- C16, counterexample.  On `rideManager` a fix with accuracy `-1` is not a
no-op: it becomes the current location, the old current location becomes the
previous one, the history grows and the total distance changes. -/
theorem updateLocation_negative_accuracy_not_noop :
    (GPSManager.updateLocation ratMath rideManager (fixAt 1 2000 (-1)) 2000).1.currentLocation
      = some (fixAt 1 2000 (-1)).toFix ∧
    (GPSManager.updateLocation ratMath rideManager (fixAt 1 2000 (-1)) 2000).1.currentLocation
      ≠ rideManager.currentLocation ∧
    (GPSManager.updateLocation ratMath rideManager (fixAt 1 2000 (-1)) 2000).1.previousLocation
      ≠ rideManager.previousLocation ∧
    (GPSManager.updateLocation ratMath rideManager (fixAt 1 2000 (-1)) 2000).1.locationHistory
      ≠ rideManager.locationHistory ∧
    (GPSManager.updateLocation ratMath rideManager (fixAt 1 2000 (-1)) 2000).1.totalDistance
      ≠ rideManager.totalDistance := by
  refine ⟨rfl, ?_, ?_, ?_, ?_⟩
  · norm_num [GPSManager.updateLocation, rideManager, fixAt]
  · rw [updateLocation_previousLocation ratMath rideManager _ _ _ rfl]
    simp [rideManager]
  · rw [updateLocation_locationHistory]
    simp [rideManager]
  · norm_num [GPSManager.updateLocation, rideManager, fixAt, GPSManager.calculateDistance,
      Distance.calculateDistance, Distance.toRadians, ratMath]

/-- C16, amended.  `updateLocation` does not validate the fix.  A fix with a
negative accuracy is processed like every fix of accuracy below 20: it becomes
the current location and is appended to the history, and when a current
location exists that one becomes the previous location and the Haversine
distance to the fix is added to the total. -/
theorem updateLocation_negative_accuracy {α : Type} [LinearOrderedField α] [FloorRing α]
    (M : JsMath α) (s : GPSManager α) (location : LocationObject α) (now : α)
    (hneg : location.coords.accuracy < 0) :
    (GPSManager.updateLocation M s location now).1.currentLocation = some location.toFix ∧
    (GPSManager.updateLocation M s location now).1.locationHistory =
      s.locationHistory ++ [location.toFix] ∧
    (∀ cur, s.currentLocation = some cur →
      (GPSManager.updateLocation M s location now).1.previousLocation = some cur ∧
      (GPSManager.updateLocation M s location now).1.totalDistance =
        s.totalDistance + GPSManager.calculateDistance M cur.latitude cur.longitude
          location.coords.latitude location.coords.longitude) := by
  refine ⟨rfl, updateLocation_locationHistory M s location now, ?_⟩
  intro cur hcur
  refine ⟨updateLocation_previousLocation M s location now cur hcur, ?_⟩
  have hacc : location.coords.accuracy < 20 := lt_trans hneg (by norm_num)
  simp only [GPSManager.updateLocation, hcur, if_pos hacc]
  split <;> rfl

/-- Witness for C16 (amended) on `rideManager` with a fix of accuracy `-1`. -/
theorem updateLocation_negative_accuracy_witness :
    (GPSManager.updateLocation ratMath rideManager (fixAt 1 2000 (-1)) 2000).1.locationHistory =
      rideManager.locationHistory ++ [(fixAt 1 2000 (-1)).toFix] :=
  (updateLocation_negative_accuracy ratMath rideManager (fixAt 1 2000 (-1)) 2000
    (by norm_num [fixAt])).2.1

/-- C17, counterexample.  With permission granted and the initial fix
delivered, but `Location.watchPositionAsync` rejecting, `startTracking` on a
fresh manager returns `false`. -/
theorem startTracking_watch_rejected_returns_false :
    ({ startEnv with watch := none } : StartEnv ℚ).permission =
      some PermissionStatus.granted ∧
    ({ startEnv with watch := none } : StartEnv ℚ).initialLocation =
      some (fixAt 0 1000 5) ∧
    (GPSManager.startTracking (GPSManager.new : GPSManager ℚ) (some 7)
      { startEnv with watch := none }).1 = false := by
  refine ⟨rfl, rfl, ?_⟩
  simp [GPSManager.startTracking, GPSManager.requestPermissions, startEnv]

/-- C17, amended.  When permission is granted, an initial fix is delivered and
the position watch is established, `startTracking` returns `true` and leaves
`totalDistance = 0`, `currentSpeed = 0`, `startTime = now`,
`isTracking = true`, the initial fix as current location and as the only
entry of the history, whatever the state was before the call. -/
theorem startTracking_success {α : Type} [LinearOrderedField α] [FloorRing α]
    (s : GPSManager α) (onLocationUpdate : Option Callback) (env : StartEnv α)
    (initial : LocationObject α) (watchId : Subscription)
    (hperm : env.permission = some PermissionStatus.granted)
    (hinit : env.initialLocation = some initial)
    (hwatch : env.watch = some watchId) :
    (GPSManager.startTracking s onLocationUpdate env).1 = true ∧
    (GPSManager.startTracking s onLocationUpdate env).2.1.totalDistance = 0 ∧
    (GPSManager.startTracking s onLocationUpdate env).2.1.currentSpeed = 0 ∧
    (GPSManager.startTracking s onLocationUpdate env).2.1.startTime = some env.now ∧
    (GPSManager.startTracking s onLocationUpdate env).2.1.isTracking = true ∧
    (GPSManager.startTracking s onLocationUpdate env).2.1.currentLocation =
      some initial.toFix ∧
    (GPSManager.startTracking s onLocationUpdate env).2.1.locationHistory =
      [initial.toFix] := by
  simp only [GPSManager.startTracking, GPSManager.requestPermissions, hperm, hinit, hwatch]
  cases onLocationUpdate <;> simp [LocationObject.toFix]

/-- Witness for C17 (amended): `startTracking` in the environment `startEnv`
on `rideManager`, which has 3 km on the clock and a speed of 12. -/
theorem startTracking_success_witness :
    (GPSManager.startTracking rideManager (some 7) startEnv).1 = true ∧
    (GPSManager.startTracking rideManager (some 7) startEnv).2.1.totalDistance = 0 ∧
    (GPSManager.startTracking rideManager (some 7) startEnv).2.1.currentSpeed = 0 :=
  ⟨(startTracking_success rideManager (some 7) startEnv (fixAt 0 1000 5) 1 rfl rfl rfl).1,
   (startTracking_success rideManager (some 7) startEnv (fixAt 0 1000 5) 1 rfl rfl rfl).2.1,
   (startTracking_success rideManager (some 7) startEnv (fixAt 0 1000 5) 1 rfl rfl rfl).2.2.1⟩

/-- C18, counterexample.  Observer `3` is registered with `addCallback` on a
fresh manager; `startTracking(7)` then succeeds.  Observer `3` is still
registered, but the only notification sent at start goes to observer `7`. -/
theorem startTracking_earlier_callback_not_notified :
    (GPSManager.startTracking (GPSManager.addCallback (GPSManager.new : GPSManager ℚ) 3)
      (some 7) startEnv).1 = true ∧
    (GPSManager.startTracking (GPSManager.addCallback (GPSManager.new : GPSManager ℚ) 3)
      (some 7) startEnv).2.1.callbacks = [3, 7] ∧
    (GPSManager.startTracking (GPSManager.addCallback (GPSManager.new : GPSManager ℚ) 3)
      (some 7) startEnv).2.2.map (fun n => n.1) = [7] := by
  refine ⟨?_, ?_, ?_⟩ <;>
    simp [GPSManager.startTracking, GPSManager.requestPermissions, startEnv,
      GPSManager.addCallback, GPSManager.new]

/-- C18, amended.  When `startTracking` obtains permission and an initial fix,
the callback passed to it is invoked exactly once, with the snapshot of the
seeded state, and it is the only one invoked; with no callback passed nobody
is notified.  Callbacks registered earlier stay registered. -/
theorem startTracking_notifications {α : Type} [LinearOrderedField α] [FloorRing α]
    (s : GPSManager α) (onLocationUpdate : Option Callback) (env : StartEnv α)
    (initial : LocationObject α)
    (hperm : env.permission = some PermissionStatus.granted)
    (hinit : env.initialLocation = some initial) :
    (∀ callback, onLocationUpdate = some callback →
      (GPSManager.startTracking s onLocationUpdate env).2.2 =
        [(callback, GPSManager.getTrackingData
            (GPSManager.startTracking s onLocationUpdate env).2.1 env.nowNotify)] ∧
      (GPSManager.startTracking s onLocationUpdate env).2.1.callbacks =
        s.callbacks ++ [callback]) ∧
    (onLocationUpdate = none →
      (GPSManager.startTracking s onLocationUpdate env).2.2 = [] ∧
      (GPSManager.startTracking s onLocationUpdate env).2.1.callbacks = s.callbacks) ∧
    (GPSManager.getTrackingData
        (GPSManager.startTracking s onLocationUpdate env).2.1 env.nowNotify).isTracking = true ∧
    (GPSManager.getTrackingData
        (GPSManager.startTracking s onLocationUpdate env).2.1 env.nowNotify).totalDistance = 0 ∧
    (GPSManager.getTrackingData
        (GPSManager.startTracking s onLocationUpdate env).2.1 env.nowNotify).currentSpeed = 0 ∧
    (GPSManager.getTrackingData
        (GPSManager.startTracking s onLocationUpdate env).2.1 env.nowNotify).currentLocation =
      some initial.toFix ∧
    (GPSManager.getTrackingData
        (GPSManager.startTracking s onLocationUpdate env).2.1 env.nowNotify).locationHistory =
      [initial.toFix] := by
  simp only [GPSManager.startTracking, GPSManager.requestPermissions, hperm, hinit]
  cases onLocationUpdate <;> cases env.watch <;>
    simp [GPSManager.getTrackingData, LocationObject.toFix]

/-- Witness for C18 (amended): the start of `startEnv` on a fresh manager with
observer `7` sends one notification, to observer `7`. -/
theorem startTracking_notifications_witness :
    (GPSManager.startTracking (GPSManager.new : GPSManager ℚ) (some 7) startEnv).2.2 =
      [(7, GPSManager.getTrackingData
          (GPSManager.startTracking (GPSManager.new : GPSManager ℚ) (some 7) startEnv).2.1
          startEnv.nowNotify)] :=
  ((startTracking_notifications (GPSManager.new : GPSManager ℚ) (some 7) startEnv
      (fixAt 0 1000 5) rfl rfl).1 7 rfl).1

/-- C19. `stopTracking` finalizes without clearing totals: after the call
`isTracking` is false and the callback list is empty; the returned snapshot
has `isTracking = false` and carries the total distance, current speed,
current location and history held just before the call; and those four fields
of the manager are unchanged. -/
theorem stopTracking_keeps_totals {α : Type} [LinearOrderedField α] [FloorRing α]
    (s : GPSManager α) (now : α) :
    ((GPSManager.stopTracking s now).2.1.isTracking = false ∧
      (GPSManager.stopTracking s now).2.1.callbacks = []) ∧
    ((GPSManager.stopTracking s now).1.isTracking = false ∧
      (GPSManager.stopTracking s now).1.totalDistance = s.totalDistance ∧
      (GPSManager.stopTracking s now).1.currentSpeed = s.currentSpeed ∧
      (GPSManager.stopTracking s now).1.currentLocation = s.currentLocation ∧
      (GPSManager.stopTracking s now).1.locationHistory = s.locationHistory) ∧
    ((GPSManager.stopTracking s now).2.1.totalDistance = s.totalDistance ∧
      (GPSManager.stopTracking s now).2.1.currentSpeed = s.currentSpeed ∧
      (GPSManager.stopTracking s now).2.1.currentLocation = s.currentLocation ∧
      (GPSManager.stopTracking s now).2.1.locationHistory = s.locationHistory) := by
  simp only [GPSManager.stopTracking, GPSManager.getTrackingData]
  cases s.watchId <;> simp

/-- C20. `stopTracking` on a never-started manager returns the zero-valued
snapshot, whatever the clock reads, and leaves the manager in its constructor
state, so a second call returns the same snapshot. -/
theorem stopTracking_never_started {α : Type} [LinearOrderedField α] [FloorRing α]
    (now later : α) :
    (GPSManager.stopTracking (GPSManager.new : GPSManager α) now).1 =
      { isTracking := false
        currentLocation := none
        totalDistance := 0
        currentSpeed := 0
        duration := 0
        locationHistory := []
        averageSpeed := 0 } ∧
    (GPSManager.stopTracking (GPSManager.new : GPSManager α) now).2.1 = GPSManager.new ∧
    (GPSManager.stopTracking
        (GPSManager.stopTracking (GPSManager.new : GPSManager α) now).2.1 later).1 =
      (GPSManager.stopTracking (GPSManager.new : GPSManager α) now).1 := by
  simp [GPSManager.stopTracking, GPSManager.getTrackingData, GPSManager.new, mathFloor]

/-- C21. `getCurrentWeather` is total with respect to fetch failures: whenever
the call goes past the cache test, whatever the outcome of the request, it
returns a snapshot (never `null`, and the function has no throwing path); and
when the request fails, or is never made, while the cache holds no data, the
value returned is the synthetic snapshot of `getMockWeather`. -/
theorem getCurrentWeather_total {α : Type} [LinearOrderedField α] [FloorRing α]
    (M : JsMath α) (s : WeatherManager α) (latitude longitude : α) (env : WeatherEnv α) :
    (WeatherManager.shouldFetchWeather M s latitude longitude env.now = true →
      ∃ d, (WeatherManager.getCurrentWeather M s latitude longitude env).1 = some d) ∧
    (WeatherManager.isFailure env.fetch = true → s.weatherCache.data = none →
      (WeatherManager.getCurrentWeather M s latitude longitude env).1 =
        some WeatherManager.getMockWeather) := by
  constructor
  · intro hfetch
    by_cases hkey : (s.apiKey.isNone || decide (s.apiKey = some "")) = true
    · exact ⟨WeatherManager.getMockWeather, by
        simp [WeatherManager.getCurrentWeather, hfetch, hkey]⟩
    · cases hres : WeatherManager.fetchAndFormat env.fetch with
      | ok d => exact ⟨d, by simp [WeatherManager.getCurrentWeather, hfetch, hkey, hres]⟩
      | error e =>
        cases hc : WeatherManager.getCachedWeather s env.nowLater with
        | none =>
          exact ⟨WeatherManager.getMockWeather, by
            simp [WeatherManager.getCurrentWeather, hfetch, hkey, hres, hc]⟩
        | some c =>
          exact ⟨c, by simp [WeatherManager.getCurrentWeather, hfetch, hkey, hres, hc]⟩
  · intro hfail hnone
    obtain ⟨e, he⟩ := fetchAndFormat_of_isFailure env.fetch hfail
    have hfetch : WeatherManager.shouldFetchWeather M s latitude longitude env.now = true := by
      simp [WeatherManager.shouldFetchWeather, hnone]
    by_cases hkey : (s.apiKey.isNone || decide (s.apiKey = some "")) = true
    · simp [WeatherManager.getCurrentWeather, hfetch, hkey]
    · simp [WeatherManager.getCurrentWeather, hfetch, hkey, he,
        WeatherManager.getCachedWeather, hnone]

/-- Witness for C21: a new manager with an API key and an empty cache, asked
for the origin while the network is down, returns the synthetic snapshot. -/
theorem getCurrentWeather_total_witness :
    (WeatherManager.getCurrentWeather ratMath
        (WeatherManager.new (WEATHER_CONFIG (some "key")) : WeatherManager ℚ) 0 0
        { now := 100, nowLater := 100, fetch := FetchOutcome.networkError }).1 =
      some WeatherManager.getMockWeather :=
  (getCurrentWeather_total ratMath
      (WeatherManager.new (WEATHER_CONFIG (some "key")) : WeatherManager ℚ) 0 0
      { now := 100, nowLater := 100, fetch := FetchOutcome.networkError }).2 rfl rfl

/-- C22. On a successful fetch for `(latitude, longitude)`, with `now` the
clock reading of `updateCache`, `getCurrentWeather` returns the new snapshot
and replaces the whole cache slot by
`{data: snapshot, location: (latitude, longitude), timestamp: now,
expiresAt: now + cacheDuration}`, so no field of the previous entry is left;
`cacheDuration` is `900000` ms under the default configuration. -/
theorem getCurrentWeather_success_replaces_slot {α : Type} [LinearOrderedField α]
    [FloorRing α] (M : JsMath α) (s : WeatherManager α) (latitude longitude : α)
    (env : WeatherEnv α) (d : WeatherData α)
    (hfetch : WeatherManager.shouldFetchWeather M s latitude longitude env.now = true)
    (hkey : s.apiKey ≠ none ∧ s.apiKey ≠ some "")
    (hok : WeatherManager.fetchAndFormat env.fetch = .ok d) :
    (WeatherManager.getCurrentWeather M s latitude longitude env).1 = some d ∧
    (WeatherManager.getCurrentWeather M s latitude longitude env).2.1.weatherCache =
      { data := some d
        location := some { latitude := latitude, longitude := longitude }
        timestamp := some env.nowLater
        expiresAt := some (env.nowLater + s.cacheDuration) } ∧
    (WeatherManager.getCurrentWeather M s latitude longitude env).2.1.currentWeather = some d ∧
    (WeatherManager.getCurrentWeather M s latitude longitude env).2.2 =
      [{ latitude := latitude, longitude := longitude }] ∧
    (∀ envKey,
      (WeatherManager.new (WEATHER_CONFIG envKey) : WeatherManager α).cacheDuration = 900000) := by
  have hk : ¬ (s.apiKey.isNone || decide (s.apiKey = some "")) = true := by
    cases hk : s.apiKey with
    | none => exact absurd hk hkey.1
    | some k =>
      have : k ≠ "" := fun h => hkey.2 (by rw [hk, h])
      simp [this]
  refine ⟨?_, ?_, ?_, ?_, ?_⟩
  · simp [WeatherManager.getCurrentWeather, hfetch, hk, hok]
  · simp [WeatherManager.getCurrentWeather, hfetch, hk, hok, WeatherManager.updateCache]
  · simp [WeatherManager.getCurrentWeather, hfetch, hk, hok]
  · simp [WeatherManager.getCurrentWeather, hfetch, hk, hok]
  · intro envKey
    norm_num [WeatherManager.new, WEATHER_CONFIG]

/-- Witness for C22: `cachedManager`, whose entry for the origin expired at
`900100`, fetches `clearSkyPayload` for `(10, 0)` at time `2000000`; the new
entry is located at `(10, 0)` and expires at `2900000`. -/
theorem getCurrentWeather_success_replaces_slot_witness :
    (WeatherManager.getCurrentWeather ratMath cachedManager 10 0
        { now := 2000000, nowLater := 2000000,
          fetch := FetchOutcome.ok clearSkyPayload }).2.1.weatherCache.location =
      some { latitude := 10, longitude := 0 } ∧
    (WeatherManager.getCurrentWeather ratMath cachedManager 10 0
        { now := 2000000, nowLater := 2000000,
          fetch := FetchOutcome.ok clearSkyPayload }).2.1.weatherCache.expiresAt =
      some 2900000 := by
  obtain ⟨-, hcache, -⟩ := getCurrentWeather_success_replaces_slot ratMath cachedManager 10 0
    { now := 2000000, nowLater := 2000000, fetch := FetchOutcome.ok clearSkyPayload }
    { temperature := mathRound (127 / 5)
      feelsLike := mathRound 26
      humidity := 40
      windSpeed := mathRound (3 * 3.6)
      windDirection := 90
      description := "clear sky"
      icon := "01d"
      visibility := 10000 / 1000
      condition := WeatherManager.getCyclistCondition 800 (127 / 5 : ℚ) }
    (by norm_num +decide [WeatherManager.shouldFetchWeather, cachedManager,
          WeatherManager.updateCache, WeatherManager.new, WEATHER_CONFIG, nullToZero])
    (by decide) rfl
  rw [hcache]
  constructor
  · rfl
  · norm_num [cachedManager, WeatherManager.updateCache, WeatherManager.new, WEATHER_CONFIG]

/-- C23. The distance from a point to itself is `0`, hence within `1e-9` km of
`0`, for every coordinate, as soon as the `Math` object is exact at `0` and
`1` (`sin 0 = 0`, `sqrt 0 = 0`, `sqrt 1 = 1`, `atan2(0, 1) = 0`). -/
theorem calculateDistance_self {α : Type} [LinearOrderedField α]
    (M : JsMath α) (hsin : M.sin 0 = 0) (hsqrt0 : M.sqrt 0 = 0) (hsqrt1 : M.sqrt 1 = 1)
    (hatan : M.atan2 0 1 = 0) (lat lon : α) :
    Distance.calculateDistance M lat lon lat lon = 0 ∧
    |Distance.calculateDistance M lat lon lat lon| < 1 / 10 ^ 9 := by
  have h := calculateDistance_self_of_exact M hsin hsqrt0 hsqrt1 hatan lat lon
  refine ⟨h, ?_⟩
  rw [h, abs_zero]
  positivity

/-- Witness for C23 with the real `Math` object, at New York City. -/
theorem calculateDistance_self_witness :
    Distance.calculateDistance realMath 40.7128 (-74.0060) 40.7128 (-74.0060) = 0 :=
  (calculateDistance_self realMath Real.sin_zero Real.sqrt_zero Real.sqrt_one
    (show Complex.arg (1 : ℂ) = 0 from Complex.arg_one) 40.7128 (-74.0060)).1

/-- C24. `calculateDistance` is symmetric in its two points, for every `Math`
object whose `sin` is odd. -/
theorem calculateDistance_symm {α : Type} [LinearOrderedField α] (M : JsMath α)
    (hodd : ∀ x, M.sin (-x) = -M.sin x) (lat1 lon1 lat2 lon2 : α) :
    Distance.calculateDistance M lat1 lon1 lat2 lon2 =
      Distance.calculateDistance M lat2 lon2 lat1 lon1 := by
  have h1 : Distance.toRadians M (lat1 - lat2) / 2 =
      -(Distance.toRadians M (lat2 - lat1) / 2) := by
    simp only [Distance.toRadians]; ring
  have h2 : Distance.toRadians M (lon1 - lon2) / 2 =
      -(Distance.toRadians M (lon2 - lon1) / 2) := by
    simp only [Distance.toRadians]; ring
  simp only [Distance.calculateDistance, h1, h2, hodd]
  generalize M.sin (Distance.toRadians M (lat2 - lat1) / 2) = u
  generalize M.sin (Distance.toRadians M (lon2 - lon1) / 2) = v
  generalize M.cos (Distance.toRadians M lat1) = c1
  generalize M.cos (Distance.toRadians M lat2) = c2
  have ha : -u * -u + c2 * c1 * -v * -v = u * u + c1 * c2 * v * v := by ring
  rw [ha]

/-- Witness for C24 with the real `Math` object: New York City to Los Angeles
and back. -/
theorem calculateDistance_symm_witness :
    Distance.calculateDistance realMath 40.7128 (-74.0060) 34.0522 (-118.2437) =
      Distance.calculateDistance realMath 34.0522 (-118.2437) 40.7128 (-74.0060) :=
  calculateDistance_symm realMath Real.sin_neg 40.7128 (-74.0060) 34.0522 (-118.2437)

/-- The loop of `calculateTotalDistance`, entered at index `p.length + 1` of
the array `p ++ a :: rest` with the running total `acc`, ends with `acc` plus
the path distance of `a :: rest`. -/
theorem calculateTotalDistance_loop {α : Type} [LinearOrderedField α] (M : JsMath α)
    (rest : List (Coordinate α)) :
    ∀ (p : List (Coordinate α)) (a : Coordinate α) (acc : α),
      (List.range' (p.length + 1) rest.length).foldl
        (fun totalDistance i =>
          match (p ++ a :: rest)[i - 1]?, (p ++ a :: rest)[i]? with
          | some prev, some curr =>
            totalDistance + Distance.calculateDistance M prev.latitude prev.longitude
              curr.latitude curr.longitude
          | _, _ => totalDistance)
        acc = acc + Distance.pathDistance M (a :: rest) := by
  induction rest with
  | nil => intro p a acc; simp [Distance.pathDistance]
  | cons b rest ih =>
    intro p a acc
    have h := ih (p ++ [a]) b
      (acc + Distance.calculateDistance M a.latitude a.longitude b.latitude b.longitude)
    simp only [List.length_append, List.length_singleton, List.append_assoc,
      List.singleton_append] at h
    simp only [List.length_cons, List.range'_succ, List.foldl_cons, Nat.add_sub_cancel]
    have e1 : (p ++ a :: b :: rest)[p.length]? = some a := by
      rw [List.getElem?_append_right (le_refl _)]
      simp
    have e2 : (p ++ a :: b :: rest)[p.length + 1]? = some b := by
      rw [List.getElem?_append_right (Nat.le_succ _)]
      simp
    rw [e1, e2]
    simp only [Distance.pathDistance]
    rw [h]
    ring

/-- On a list, `calculateTotalDistance` is the sum of the distances between
consecutive points. -/
theorem calculateTotalDistance_some {α : Type} [LinearOrderedField α] (M : JsMath α)
    (coordinates : List (Coordinate α)) :
    Distance.calculateTotalDistance M (some coordinates) = Distance.pathDistance M coordinates := by
  match coordinates with
  | [] => simp [Distance.calculateTotalDistance, Distance.pathDistance]
  | [a] => simp [Distance.calculateTotalDistance, Distance.pathDistance]
  | a :: b :: rest =>
    have h := calculateTotalDistance_loop M (b :: rest) [] a 0
    simp only [List.length_nil, zero_add, List.nil_append, List.length_cons] at h
    simp only [Distance.calculateTotalDistance, List.length_cons]
    rw [if_neg (by omega)]
    simpa using h

/-- C25. `calculateTotalDistance` returns the sum of the distances between
consecutive points of the list, `0` for a missing list and for a list of
length 0 or 1, and `distance(a, b) + distance(b, c)` for three points. -/
theorem calculateTotalDistance_eq_sum {α : Type} [LinearOrderedField α] (M : JsMath α) :
    (∀ coordinates : List (Coordinate α),
      Distance.calculateTotalDistance M (some coordinates) =
        Distance.pathDistance M coordinates) ∧
    Distance.calculateTotalDistance M none = 0 ∧
    Distance.calculateTotalDistance M (some []) = 0 ∧
    (∀ a : Coordinate α, Distance.calculateTotalDistance M (some [a]) = 0) ∧
    (∀ a b c : Coordinate α,
      Distance.calculateTotalDistance M (some [a, b, c]) =
        Distance.calculateDistance M a.latitude a.longitude b.latitude b.longitude +
          Distance.calculateDistance M b.latitude b.longitude c.latitude c.longitude) := by
  refine ⟨calculateTotalDistance_some M, rfl, ?_, ?_, ?_⟩
  · simp [Distance.calculateTotalDistance]
  · intro a
    simp [Distance.calculateTotalDistance]
  · intro a b c
    rw [calculateTotalDistance_some]
    simp [Distance.pathDistance]

/-- The path distance of points with latitudes in `[-90, 90]` is not
negative. -/
theorem pathDistance_nonneg_of {α : Type} [LinearOrderedField α] (M : JsMath α)
    (hsqrt : ∀ x, 0 ≤ x → 0 ≤ M.sqrt x)
    (hatan : ∀ y x, 0 ≤ y → 0 ≤ M.atan2 y x)
    (hcos : ∀ d, -90 ≤ d → d ≤ 90 → 0 ≤ M.cos (Distance.toRadians M d))
    (coordinates : List (Coordinate α))
    (hlat : ∀ c ∈ coordinates, -90 ≤ c.latitude ∧ c.latitude ≤ 90) :
    0 ≤ Distance.pathDistance M coordinates := by
  induction coordinates with
  | nil => simp [Distance.pathDistance]
  | cons a rest ih =>
    cases rest with
    | nil => simp [Distance.pathDistance]
    | cons b rest =>
      have ha := hlat a (List.mem_cons_self _ _)
      have hb := hlat b (List.mem_cons_of_mem _ (List.mem_cons_self _ _))
      have hrest := ih (fun c hc => hlat c (List.mem_cons_of_mem _ hc))
      simp only [Distance.pathDistance]
      exact add_nonneg
        (calculateDistance_nonneg_of M hsqrt hatan hcos _ _ _ _ ha hb) hrest

/-- In exact arithmetic distances are never negative: for coordinates with
latitudes in `[-90, 90]`, `calculateDistance` has a value `≥ 0`, and so has
`calculateTotalDistance` on every list of such coordinates (and on a missing
list).  The `Math` object is assumed to have `sqrt` and `atan2` non-negative
on non-negative arguments and `cos` non-negative on the radians of a
latitude, as the mathematical functions are.  The `Math` object of double
precision does not meet these assumptions where the haversine term rounds
above `1`: there `Math.sqrt(1 - a)` and the distance are `NaN`. -/
theorem distances_nonneg {α : Type} [LinearOrderedField α] (M : JsMath α)
    (hsqrt : ∀ x, 0 ≤ x → 0 ≤ M.sqrt x)
    (hatan : ∀ y x, 0 ≤ y → 0 ≤ M.atan2 y x)
    (hcos : ∀ d, -90 ≤ d → d ≤ 90 → 0 ≤ M.cos (Distance.toRadians M d)) :
    (∀ lat1 lon1 lat2 lon2 : α, -90 ≤ lat1 ∧ lat1 ≤ 90 → -90 ≤ lat2 ∧ lat2 ≤ 90 →
      0 ≤ Distance.calculateDistance M lat1 lon1 lat2 lon2) ∧
    (∀ coordinates : List (Coordinate α),
      (∀ c ∈ coordinates, -90 ≤ c.latitude ∧ c.latitude ≤ 90) →
      0 ≤ Distance.calculateTotalDistance M (some coordinates)) ∧
    0 ≤ Distance.calculateTotalDistance M none := by
  refine ⟨?_, ?_, le_of_eq rfl⟩
  · intro lat1 lon1 lat2 lon2 h1 h2
    exact calculateDistance_nonneg_of M hsqrt hatan hcos lat1 lon1 lat2 lon2 h1 h2
  · intro coordinates hlat
    rw [calculateTotalDistance_some]
    exact pathDistance_nonneg_of M hsqrt hatan hcos coordinates hlat

/-- An instance of `distances_nonneg` for the real `Math` object: the distance
from New York City to Los Angeles is not negative. -/
theorem distances_nonneg_witness :
    0 ≤ Distance.calculateDistance realMath 40.7128 (-74.0060) 34.0522 (-118.2437) :=
  (distances_nonneg realMath
      (fun x _ => Real.sqrt_nonneg x)
      (fun _ _ hy => Complex.arg_nonneg_iff.mpr hy)
      realMath_cos_nonneg).1 40.7128 (-74.0060) 34.0522 (-118.2437)
    (by norm_num) (by norm_num)

/-- C27. Threshold contract of `formatDistance`: for `distanceKm ≥ 1` the
result is `distanceKm.toFixed(decimals)` followed by `" km"`, with `decimals`
taken as `2` when omitted, and for `decimals > 0` it has the shape
`integer part, ".", fraction, " km"` with exactly `decimals` characters in the
fraction; for `distanceKm < 1` the result is `Math.round(distanceKm * 1000)`
followed by `" m"`. -/
theorem formatDistance_threshold {α : Type} [LinearOrderedField α] [FloorRing α]
    (distanceKm : α) (decimals : ℕ) :
    (1 ≤ distanceKm →
      Distance.formatDistance distanceKm (some decimals) =
        Distance.toFixed distanceKm decimals ++ " km" ∧
      Distance.formatDistance distanceKm none = Distance.toFixed distanceKm 2 ++ " km" ∧
      (0 < decimals → ∃ integerPart fraction : String, fraction.length = decimals ∧
        Distance.formatDistance distanceKm (some decimals) =
          integerPart ++ "." ++ fraction ++ " km")) ∧
    (distanceKm < 1 →
      Distance.formatDistance distanceKm (some decimals) =
        Distance.integerToString (mathRound (distanceKm * 1000)) ++ " m" ∧
      Distance.formatDistance distanceKm none =
        Distance.integerToString (mathRound (distanceKm * 1000)) ++ " m") := by
  constructor
  · intro h
    refine ⟨by simp [Distance.formatDistance, h], by simp [Distance.formatDistance, h], ?_⟩
    intro hpos
    have hne : decimals ≠ 0 := Nat.pos_iff_ne_zero.mp hpos
    refine ⟨toString (⌊distanceKm * 10 ^ decimals + 1 / 2⌋.toNat / 10 ^ decimals),
      String.mk ((List.range decimals).map fun i =>
        Nat.digitChar (⌊distanceKm * 10 ^ decimals + 1 / 2⌋.toNat /
          10 ^ (decimals - 1 - i) % 10)), ?_, ?_⟩
    · simp [String.length]
    · simp [Distance.formatDistance, h, Distance.toFixed, hne]
  · intro h
    have h' : ¬ 1 ≤ distanceKm := not_le.mpr h
    exact ⟨by simp [Distance.formatDistance, h'], by simp [Distance.formatDistance, h']⟩

/-- Witness for C27, the three fixtures of the specification:
`formatDistance(0.5)` is `"500 m"`, `formatDistance(1.0)` is `"1.00 km"` and
`formatDistance(2.345, 1)` is `"2.3 km"`. -/
theorem formatDistance_threshold_witness :
    Distance.formatDistance (0.5 : ℚ) none = "500 m" ∧
    Distance.formatDistance (1.0 : ℚ) none = "1.00 km" ∧
    Distance.formatDistance (2.345 : ℚ) (some 1) = "2.3 km" := by
  refine ⟨?_, ?_, ?_⟩
  · rw [((formatDistance_threshold (0.5 : ℚ) 2).2 (by norm_num)).2]
    norm_num [Distance.integerToString, mathRound]
    rfl
  · rw [((formatDistance_threshold (1.0 : ℚ) 2).1 (by norm_num)).2.1]
    norm_num [Distance.toFixed]
    decide
  · rw [((formatDistance_threshold (2.345 : ℚ) 1).1 (by norm_num)).1]
    norm_num [Distance.toFixed]
    decide

/-- C29. The metre branch of `formatDistance` can print a full kilometre: for
`0.9995 ≤ distanceKm < 1` the result is `"1000 m"`, whatever `decimals` is. -/
theorem formatDistance_metre_branch_prints_1000 {α : Type} [LinearOrderedField α]
    [FloorRing α] (distanceKm : α) (decimals : Option ℕ)
    (hlow : 9995 / 10000 ≤ distanceKm) (hhigh : distanceKm < 1) :
    Distance.formatDistance distanceKm decimals = "1000 m" := by
  have h' : ¬ 1 ≤ distanceKm := not_le.mpr hhigh
  have hfloor : ⌊distanceKm * 1000 + 1 / 2⌋ = 1000 := by
    rw [Int.floor_eq_iff]
    constructor
    · push_cast
      linarith
    · push_cast
      linarith
  have hround : mathRound (distanceKm * 1000) = 1000 := by
    simp only [mathRound]
    rw [hfloor]
    norm_num
  have hint : ⌊(1000 : α)⌋ = 1000 := by
    have : ((1000 : ℤ) : α) = 1000 := by norm_num
    rw [← this, Int.floor_intCast]
  simp only [Distance.formatDistance, ge_iff_le, h', if_false, hround,
    Distance.integerToString, hint]
  rfl

/-- Witness for C29: `formatDistance(0.9997)` is `"1000 m"`. -/
theorem formatDistance_metre_branch_prints_1000_witness :
    Distance.formatDistance (0.9997 : ℚ) none = "1000 m" :=
  formatDistance_metre_branch_prints_1000 (0.9997 : ℚ) none (by norm_num) (by norm_num)

/-- C30. `formatWeatherData` classifies from the unrounded temperature and
stores the rounded one.  When `main.temp` is an integer the stored condition
is the classification of the stored temperature.  For `clearSkyPayload` (code
`800`, `main.temp = 25.4`) the stored temperature is `25` and the stored
condition is `hot`, while the classification of `(800, 25)` is `perfect`. -/
theorem formatWeatherData_condition_from_unrounded {α : Type} [LinearOrderedField α]
    [FloorRing α] :
    (∀ (data : ApiPayload α) (weather0 : ApiWeatherItem) (w : WeatherData α),
      data.weather.head? = some weather0 →
      WeatherManager.formatWeatherData data = .ok w →
      mathRound data.main.temp = data.main.temp →
      w.condition = WeatherManager.getCyclistCondition weather0.id w.temperature) ∧
    (∃ w : WeatherData ℚ,
      WeatherManager.formatWeatherData clearSkyPayload = .ok w ∧
      w.temperature = 25 ∧ w.condition = "hot" ∧
      WeatherManager.getCyclistCondition 800 w.temperature = "perfect" ∧
      w.condition ≠ WeatherManager.getCyclistCondition 800 w.temperature) := by
  constructor
  · intro data weather0 w hhead hfmt hint
    simp only [WeatherManager.formatWeatherData, hhead, Except.ok.injEq] at hfmt
    rw [← hfmt]
    simp only [hint]
  · refine ⟨_, rfl, ?_, ?_, ?_, ?_⟩ <;>
      norm_num +decide [clearSkyPayload, mathRound, WeatherManager.getCyclistCondition]

/-- Witness for C30: `clearSky25Payload`, with code `800` and the integer
temperature `25`, is stored as the classification of its stored
temperature. -/
theorem formatWeatherData_condition_from_unrounded_witness :
    ∃ w : WeatherData ℚ,
      WeatherManager.formatWeatherData clearSky25Payload = .ok w ∧
      w.condition = WeatherManager.getCyclistCondition 800 w.temperature :=
  ⟨_, rfl,
    (@formatWeatherData_condition_from_unrounded ℚ _ _).1 clearSky25Payload
      { id := 800, description := "clear sky", icon := "01d" } _ rfl rfl
      (by norm_num [mathRound, clearSky25Payload])⟩

/-- The Taylor polynomial of degree 7 of `exp (x i)`, split into its real and
imaginary parts. -/
theorem exp_taylor_sum8 (x : ℝ) :
    (∑ m ∈ Finset.range 8, ((x : ℂ) * Complex.I) ^ m / (m.factorial : ℂ)) =
      ((1 - x ^ 2 / 2 + x ^ 4 / 24 - x ^ 6 / 720 : ℝ) : ℂ) +
        ((x - x ^ 3 / 6 + x ^ 5 / 120 - x ^ 7 / 5040 : ℝ) : ℂ) * Complex.I := by
  have h2 : (Complex.I : ℂ) ^ 2 = -1 := Complex.I_sq
  have h3 : (Complex.I : ℂ) ^ 3 = -Complex.I := by rw [pow_succ, h2]; ring
  have h4 : (Complex.I : ℂ) ^ 4 = 1 := Complex.I_pow_four
  have h5 : (Complex.I : ℂ) ^ 5 = Complex.I := by rw [pow_succ, h4]; ring
  have h6 : (Complex.I : ℂ) ^ 6 = -1 := by rw [pow_succ, h5]; rw [← sq, h2]
  have h7 : (Complex.I : ℂ) ^ 7 = -Complex.I := by rw [pow_succ, h6]; ring
  simp only [Finset.sum_range_succ, Finset.range_zero, Finset.sum_empty, mul_pow, h2, h3, h4,
    h5, h6, h7, Nat.factorial]
  push_cast
  ring

/-- Taylor bounds of order 8 for the real cosine and sine on `[-1, 1]`. -/
theorem cos_sin_taylor8 (x : ℝ) (hx : |x| ≤ 1) :
    |Real.cos x - (1 - x ^ 2 / 2 + x ^ 4 / 24 - x ^ 6 / 720)| ≤ |x| ^ 8 * (1 / 35840) ∧
    |Real.sin x - (x - x ^ 3 / 6 + x ^ 5 / 120 - x ^ 7 / 5040)| ≤ |x| ^ 8 * (1 / 35840) := by
  have hz : Complex.abs ((x : ℂ) * Complex.I) ≤ 1 := by simpa using hx
  have h := @Complex.exp_bound ((x : ℂ) * Complex.I) hz 8 (by norm_num)
  rw [exp_taylor_sum8] at h
  have habs : Complex.abs ((x : ℂ) * Complex.I) = |x| := by simp
  rw [habs] at h
  have hc : (8 : ℕ).succ * (((8 : ℕ).factorial : ℝ) * (8 : ℕ))⁻¹ = (1 / 35840 : ℝ) := by
    norm_num [Nat.factorial]
  rw [hc] at h
  have hre : ∀ c s : ℝ, (Complex.exp ((x : ℂ) * Complex.I) -
      ((c : ℂ) + (s : ℂ) * Complex.I)).re = Real.cos x - c := by
    intro c s
    simp [Complex.exp_ofReal_mul_I_re]
  have him : ∀ c s : ℝ, (Complex.exp ((x : ℂ) * Complex.I) -
      ((c : ℂ) + (s : ℂ) * Complex.I)).im = Real.sin x - s := by
    intro c s
    simp [Complex.exp_ofReal_mul_I_im]
  constructor
  · rw [← hre _ (x - x ^ 3 / 6 + x ^ 5 / 120 - x ^ 7 / 5040)]
    exact le_trans (Complex.abs_re_le_abs _) h
  · rw [← him (1 - x ^ 2 / 2 + x ^ 4 / 24 - x ^ 6 / 720)]
    exact le_trans (Complex.abs_im_le_abs _) h

/-- An enclosure of `sin x` for `x` between `lo` and `hi` in `[0, 1]`, by
monotonicity and the Taylor bound at the end points. -/
theorem sin_enclosure (x lo hi : ℝ) (h0 : 0 ≤ lo) (hlo : lo ≤ x) (hhi : x ≤ hi) (h1 : hi ≤ 1) :
    lo - lo ^ 3 / 6 + lo ^ 5 / 120 - lo ^ 7 / 5040 - lo ^ 8 * (1 / 35840) ≤ Real.sin x ∧
    Real.sin x ≤ hi - hi ^ 3 / 6 + hi ^ 5 / 120 - hi ^ 7 / 5040 + hi ^ 8 * (1 / 35840) := by
  have hpi : (1 : ℝ) ≤ Real.pi / 2 := by linarith [Real.pi_gt_three]
  have hx0 : 0 ≤ x := le_trans h0 hlo
  have hhi0 : 0 ≤ hi := le_trans hx0 hhi
  have hlo1 : lo ≤ 1 := le_trans hlo (le_trans hhi h1)
  have hTlo := (cos_sin_taylor8 lo (by rw [abs_of_nonneg h0]; exact hlo1)).2
  have hThi := (cos_sin_taylor8 hi (by rw [abs_of_nonneg hhi0]; exact h1)).2
  rw [abs_of_nonneg h0] at hTlo
  rw [abs_of_nonneg hhi0] at hThi
  have hm1 : Real.sin lo ≤ Real.sin x :=
    Real.sin_le_sin_of_le_of_le_pi_div_two (by linarith) (by linarith) hlo
  have hm2 : Real.sin x ≤ Real.sin hi :=
    Real.sin_le_sin_of_le_of_le_pi_div_two (by linarith) (by linarith) hhi
  constructor
  · linarith [(abs_le.mp hTlo).1]
  · linarith [(abs_le.mp hThi).2]

/-- An enclosure of `cos x` for `x` between `lo` and `hi` in `[0, 1]`, by
monotonicity and the Taylor bound at the end points. -/
theorem cos_enclosure (x lo hi : ℝ) (h0 : 0 ≤ lo) (hlo : lo ≤ x) (hhi : x ≤ hi) (h1 : hi ≤ 1) :
    1 - hi ^ 2 / 2 + hi ^ 4 / 24 - hi ^ 6 / 720 - hi ^ 8 * (1 / 35840) ≤ Real.cos x ∧
    Real.cos x ≤ 1 - lo ^ 2 / 2 + lo ^ 4 / 24 - lo ^ 6 / 720 + lo ^ 8 * (1 / 35840) := by
  have hpi : (1 : ℝ) ≤ Real.pi := by linarith [Real.pi_gt_three]
  have hx0 : 0 ≤ x := le_trans h0 hlo
  have hhi0 : 0 ≤ hi := le_trans hx0 hhi
  have hlo1 : lo ≤ 1 := le_trans hlo (le_trans hhi h1)
  have hTlo := (cos_sin_taylor8 lo (by rw [abs_of_nonneg h0]; exact hlo1)).1
  have hThi := (cos_sin_taylor8 hi (by rw [abs_of_nonneg hhi0]; exact h1)).1
  rw [abs_of_nonneg h0] at hTlo
  rw [abs_of_nonneg hhi0] at hThi
  have hm1 : Real.cos x ≤ Real.cos lo :=
    Real.cos_le_cos_of_nonneg_of_le_pi h0 (by linarith) hlo
  have hm2 : Real.cos hi ≤ Real.cos x :=
    Real.cos_le_cos_of_nonneg_of_le_pi hx0 (by linarith) hhi
  constructor
  · linarith [(abs_le.mp hThi).1]
  · linarith [(abs_le.mp hTlo).2]

/-- The haversine term `a` of the fixture New York City to Los Angeles lies
between `0.0924096` and `0.0924116`. -/
theorem nycLa_haversine_term_bounds :
    (0.0924096 : ℝ) ≤
      Real.sin ((34.0522 - 40.7128) * (Real.pi / 180) / 2) *
          Real.sin ((34.0522 - 40.7128) * (Real.pi / 180) / 2) +
        Real.cos (40.7128 * (Real.pi / 180)) * Real.cos (34.0522 * (Real.pi / 180)) *
          Real.sin ((-118.2437 - -74.0060) * (Real.pi / 180) / 2) *
          Real.sin ((-118.2437 - -74.0060) * (Real.pi / 180) / 2) ∧
    Real.sin ((34.0522 - 40.7128) * (Real.pi / 180) / 2) *
          Real.sin ((34.0522 - 40.7128) * (Real.pi / 180) / 2) +
        Real.cos (40.7128 * (Real.pi / 180)) * Real.cos (34.0522 * (Real.pi / 180)) *
          Real.sin ((-118.2437 - -74.0060) * (Real.pi / 180) / 2) *
          Real.sin ((-118.2437 - -74.0060) * (Real.pi / 180) / 2) ≤ (0.0924116 : ℝ) := by
  have hp1 := Real.pi_gt_d6
  have hp2 := Real.pi_lt_d6
  have eA : (34.0522 - 40.7128) * (Real.pi / 180) / 2 = -(3.3303 * (Real.pi / 180)) := by ring
  have eB : (-118.2437 - -74.0060) * (Real.pi / 180) / 2 = -(22.11885 * (Real.pi / 180)) := by
    ring
  rw [eA, eB, Real.sin_neg, Real.sin_neg]
  obtain ⟨sA1, sA2⟩ := sin_enclosure (3.3303 * (Real.pi / 180)) 0.0581246 0.0581248
    (by norm_num) (by linarith) (by linarith) (by norm_num)
  obtain ⟨sB1, sB2⟩ := sin_enclosure (22.11885 * (Real.pi / 180)) 0.3860466 0.3860469
    (by norm_num) (by linarith) (by linarith) (by norm_num)
  obtain ⟨c11, c12⟩ := cos_enclosure (40.7128 * (Real.pi / 180)) 0.7105722 0.7105725
    (by norm_num) (by linarith) (by linarith) (by norm_num)
  obtain ⟨c21, c22⟩ := cos_enclosure (34.0522 * (Real.pi / 180)) 0.5943228 0.5943231
    (by norm_num) (by linarith) (by linarith) (by norm_num)
  have sAl : (0.058091 : ℝ) ≤ Real.sin (3.3303 * (Real.pi / 180)) :=
    le_trans (by norm_num) sA1
  have sAh : Real.sin (3.3303 * (Real.pi / 180)) ≤ (0.058093 : ℝ) :=
    le_trans sA2 (by norm_num)
  have sBl : (0.376528 : ℝ) ≤ Real.sin (22.11885 * (Real.pi / 180)) :=
    le_trans (by norm_num) sB1
  have sBh : Real.sin (22.11885 * (Real.pi / 180)) ≤ (0.376530 : ℝ) :=
    le_trans sB2 (by norm_num)
  have c1l : (0.757985 : ℝ) ≤ Real.cos (40.7128 * (Real.pi / 180)) :=
    le_trans (by norm_num) c11
  have c1h : Real.cos (40.7128 * (Real.pi / 180)) ≤ (0.757989 : ℝ) :=
    le_trans c12 (by norm_num)
  have c2l : (0.828526 : ℝ) ≤ Real.cos (34.0522 * (Real.pi / 180)) :=
    le_trans (by norm_num) c21
  have c2h : Real.cos (34.0522 * (Real.pi / 180)) ≤ (0.828528 : ℝ) :=
    le_trans c22 (by norm_num)
  generalize Real.sin (3.3303 * (Real.pi / 180)) = sA at *
  generalize Real.sin (22.11885 * (Real.pi / 180)) = sB at *
  generalize Real.cos (40.7128 * (Real.pi / 180)) = c1 at *
  generalize Real.cos (34.0522 * (Real.pi / 180)) = c2 at *
  have hsA0 : (0 : ℝ) ≤ sA := le_trans (by norm_num) sAl
  have hsB0 : (0 : ℝ) ≤ sB := le_trans (by norm_num) sBl
  have hc10 : (0 : ℝ) ≤ c1 := le_trans (by norm_num) c1l
  have hc20 : (0 : ℝ) ≤ c2 := le_trans (by norm_num) c2l
  have hAA1 : (0.058091 : ℝ) * 0.058091 ≤ sA * sA := mul_le_mul sAl sAl (by norm_num) hsA0
  have hAA2 : sA * sA ≤ (0.058093 : ℝ) * 0.058093 := mul_le_mul sAh sAh hsA0 (by norm_num)
  have hBB1 : (0.376528 : ℝ) * 0.376528 ≤ sB * sB := mul_le_mul sBl sBl (by norm_num) hsB0
  have hBB2 : sB * sB ≤ (0.376530 : ℝ) * 0.376530 := mul_le_mul sBh sBh hsB0 (by norm_num)
  have hcc1 : (0.757985 : ℝ) * 0.828526 ≤ c1 * c2 := mul_le_mul c1l c2l (by norm_num) hc10
  have hcc2 : c1 * c2 ≤ (0.757989 : ℝ) * 0.828528 := mul_le_mul c1h c2h hc20 (by norm_num)
  have hP1 : (0.757985 : ℝ) * 0.828526 * (0.376528 * 0.376528) ≤ c1 * c2 * (sB * sB) :=
    mul_le_mul hcc1 hBB1 (by norm_num) (mul_nonneg hc10 hc20)
  have hP2 : c1 * c2 * (sB * sB) ≤ (0.757989 : ℝ) * 0.828528 * (0.376530 * 0.376530) :=
    mul_le_mul hcc2 hBB2 (mul_nonneg hsB0 hsB0) (by norm_num)
  have e1 : -sA * -sA + c1 * c2 * -sB * -sB = sA * sA + c1 * c2 * (sB * sB) := by ring
  rw [e1]
  constructor
  · have : (0.0924096 : ℝ) ≤ 0.058091 * 0.058091 +
        0.757985 * 0.828526 * (0.376528 * 0.376528) := by norm_num
    linarith
  · have : (0.058093 : ℝ) * 0.058093 + 0.757989 * 0.828528 * (0.376530 * 0.376530) ≤
        0.0924116 := by norm_num
    linarith

/-- For `0 ≤ a ≤ 1` the angle `atan2(sqrt a, sqrt (1 - a))` is `arcsin (sqrt a)`. -/
theorem arg_haversine (a : ℝ) (h0 : 0 ≤ a) (h1 : a ≤ 1) :
    Complex.arg ⟨Real.sqrt (1 - a), Real.sqrt a⟩ = Real.arcsin (Real.sqrt a) := by
  have h1a : (0 : ℝ) ≤ 1 - a := by linarith
  rw [Complex.arg_of_re_nonneg (Real.sqrt_nonneg _)]
  have habs : Complex.abs ⟨Real.sqrt (1 - a), Real.sqrt a⟩ = 1 := by
    rw [Complex.abs_apply, Complex.normSq_mk, Real.mul_self_sqrt h1a, Real.mul_self_sqrt h0]
    norm_num
  rw [habs, div_one]

/-- A haversine term between `0.0924096` and `0.0924116` gives a distance
between 3935 km and 3945 km on a sphere of radius 6371 km. -/
theorem haversine_distance_bounds (a : ℝ) (hlo : 0.0924096 ≤ a) (hhi : a ≤ 0.0924116) :
    3935 ≤ (6371 : ℝ) * (2 * Complex.arg ⟨Real.sqrt (1 - a), Real.sqrt a⟩) ∧
    (6371 : ℝ) * (2 * Complex.arg ⟨Real.sqrt (1 - a), Real.sqrt a⟩) ≤ 3945 := by
  have h0 : 0 ≤ a := le_trans (by norm_num) hlo
  have h1 : a ≤ 1 := le_trans hhi (by norm_num)
  rw [arg_haversine a h0 h1]
  have hpi := Real.pi_gt_three
  have hs0 : 0 ≤ Real.sqrt a := Real.sqrt_nonneg a
  have hs1 : Real.sqrt a ≤ 1 := Real.sqrt_le_one.mpr h1
  have hy : Real.sqrt a ∈ Set.Icc (-1 : ℝ) 1 := ⟨by linarith, hs1⟩
  obtain ⟨-, hL⟩ := sin_enclosure (3935 / 12742) (3935 / 12742) (3935 / 12742)
    (by norm_num) le_rfl le_rfl (by norm_num)
  obtain ⟨hU, -⟩ := sin_enclosure (3945 / 12742) (3945 / 12742) (3945 / 12742)
    (by norm_num) le_rfl le_rfl (by norm_num)
  have hL' : Real.sin (3935 / 12742) ≤ 0.303937 := le_trans hL (by norm_num)
  have hU' : (0.304683 : ℝ) ≤ Real.sin (3945 / 12742) := le_trans (by norm_num) hU
  have hlow : (0.303937 : ℝ) ≤ Real.sqrt a :=
    Real.le_sqrt_of_sq_le (le_trans (by norm_num) hlo)
  have hupp : Real.sqrt a ≤ (0.304683 : ℝ) :=
    (Real.sqrt_le_left (by norm_num)).mpr (le_trans hhi (by norm_num))
  have hθ1 : (3935 / 12742 : ℝ) ≤ Real.arcsin (Real.sqrt a) :=
    (Real.le_arcsin_iff_sin_le ⟨by linarith, by linarith⟩ hy).mpr (le_trans hL' hlow)
  have hθ2 : Real.arcsin (Real.sqrt a) ≤ (3945 / 12742 : ℝ) :=
    (Real.arcsin_le_iff_le_sin hy ⟨by linarith, by linarith⟩).mpr (le_trans hupp hU')
  constructor <;> linarith

/-- C28. Known fixture: the distance from New York City `(40.7128, -74.0060)`
to Los Angeles `(34.0522, -118.2437)`, computed by `calculateDistance` with
the real `Math` object and the Earth radius 6371 km, lies between 3935 km and
3945 km. -/
theorem calculateDistance_nyc_la :
    3935 ≤ Distance.calculateDistance realMath 40.7128 (-74.0060) 34.0522 (-118.2437) ∧
    Distance.calculateDistance realMath 40.7128 (-74.0060) 34.0522 (-118.2437) ≤ 3945 :=
  haversine_distance_bounds _ nycLa_haversine_term_bounds.1 nycLa_haversine_term_bounds.2

/-- The antipodal pair `(-82, -180)`, `(82, 0)` in exact arithmetic: the
haversine term is exactly `1`, so `sqrt (1 - a)` is taken at `0`, the edge of
its domain, and the distance is half the circumference, `6371 π`.  In double
precision the same term evaluates to `1 + 2^-52`, `1 - a` is negative and the
source returns `NaN`. -/
theorem calculateDistance_antipodal_exact :
    Distance.calculateDistance realMath (-82) (-180) 82 0 = 6371 * Real.pi := by
  have e1 : ((82 : ℝ) - -82) * (Real.pi / 180) / 2 = 82 * (Real.pi / 180) := by ring
  have e2 : ((0 : ℝ) - -180) * (Real.pi / 180) / 2 = Real.pi / 2 := by ring
  have e3 : (-82 : ℝ) * (Real.pi / 180) = -(82 * (Real.pi / 180)) := by ring
  have ha : Real.sin (82 * (Real.pi / 180)) * Real.sin (82 * (Real.pi / 180)) +
      Real.cos (82 * (Real.pi / 180)) * Real.cos (82 * (Real.pi / 180)) * 1 * 1 = 1 := by
    have := Real.sin_sq_add_cos_sq (82 * (Real.pi / 180))
    linear_combination this
  have harg : Complex.arg ⟨0, 1⟩ = Real.pi / 2 := Complex.arg_I
  simp only [Distance.calculateDistance, Distance.toRadians, realMath]
  rw [e1, e2, e3, Real.cos_neg, Real.sin_pi_div_two, ha, Real.sqrt_one, sub_self,
    Real.sqrt_zero, harg]
  ring

end CyclistCompanion
